import Mathlib

/-!
Verification development for the mcu-max chess engine (`src/mcu-max.c`,
`src/mcu-max.h`), a micro-Max 4.8 derivative.  The engine is shallowly
embedded: the global `mcumax_struct` becomes an explicit `EngineState`
record threaded through pure functions, the 129-byte board
(`uint8_t board[0x80 + 1]`) is packed little-endian into a natural number
(cell `i` is byte `i`), machine arithmetic is modelled with `Nat`/`Int`
plus explicit wrap-arounds, and the recursive search `mcumax_search` is
defined with an explicit fuel parameter (fuel exhaustion exits loops the
same way the corresponding C loop exit would, leaving no move applied).
The hashing configuration is disabled in the source (`MCUMAX_HASHING_ENABLED`
is not defined), so no hash fields are modelled.  The user callback is the
null callback throughout (no callback installed), hence `stop_search` can
only be false during a search but is still modelled as a state field.
-/

set_option linter.unusedVariables false

set_option maxRecDepth 200000
set_option maxHeartbeats 8000000

namespace McuMax

/-! ## Definitions: the shallow embedding of the engine -/

/-- 8-bit wrap-around for signed intermediate values assigned to `uint8_t`. -/
def u8 (x : Int) : Nat := (x.emod 256).toNat

/-- 8-bit wrap-around for natural intermediate values assigned to `uint8_t`. -/
def u8n (x : Nat) : Nat := x % 256

/-- Byte `i` of the packed board, i.e. `mcumax.board[i]`. -/
def getCell (b i : Nat) : Nat := b / 256 ^ i % 256

/-- Write byte `i` of the packed board: `mcumax.board[i] = v` (wrapping `v` mod 256). -/
def setCell (b i v : Nat) : Nat :=
  (b / 256 ^ (i + 1) * 256 + v % 256) * 256 ^ i + b % 256 ^ i

/-- Two's-complement `x & 0x88` on an `int` operand (bits 3 and 7). -/
def intAnd0x88 (x : Int) : Int :=
  8 * ((x.fdiv 8).emod 2) + 128 * ((x.fdiv 128).emod 2)

/-- Two's-complement test of bit 7 (`x & 0x80 ≠ 0`) on an `int` operand. -/
def intBit7 (x : Int) : Bool := (x.fdiv 128).emod 2 = 1

/-- `(step_vector >> 1) & 0b111` with arithmetic shift on a signed operand. -/
def shrAnd7 (sv : Int) : Nat := ((sv.fdiv 2).emod 8).toNat

/-- `mcumax_move`. -/
structure Move where
  fromSq : Nat
  toSq : Nat
  deriving DecidableEq, Repr

/-- `enum mcumax_mode`. -/
inductive Mode where
  | internal
  | searchValidMoves
  | searchBestMove
  | playMove
  deriving DecidableEq, Repr

/-- The engine state `mcumax_struct` (hashing disabled); the caller-owned
valid-move buffer is modelled by the list of entries actually written. -/
structure EngineState where
  board : Nat
  currentSide : Nat
  score : Int
  enPassantSquare : Nat
  nonPawnMaterial : Int
  squareFrom : Nat
  squareTo : Nat
  nodeCount : Nat
  nodeMax : Nat
  depthMax : Nat
  stopSearch : Bool
  validMovesBuffer : List Move
  validMovesBufferSize : Nat
  validMovesNum : Nat
  deriving DecidableEq, Repr

/-- `mcumax_capture_values`. -/
def captureValues : Nat → Int
  | 0 => 0 | 1 => 2 | 2 => 2 | 3 => 7
  | 4 => -1 | 5 => 8 | 6 => 12 | 7 => 23
  | _ => 0

/-- `mcumax_step_vectors_indices`. -/
def stepVectorsIndices : Nat → Int
  | 0 => 0 | 1 => 7 | 2 => -1 | 3 => 11
  | 4 => 6 | 5 => 8 | 6 => 3 | 7 => 6
  | _ => 0

/-- `mcumax_step_vectors`. -/
def stepVectors : Nat → Int
  | 0 => -16 | 1 => -15 | 2 => -17 | 3 => 0
  | 4 => 1 | 5 => 16 | 6 => 0
  | 7 => 1 | 8 => 16 | 9 => 15 | 10 => 17 | 11 => 0
  | 12 => 14 | 13 => 18 | 14 => 31 | 15 => 33
  | _ => 0

/-- `mcumax_board_setup`. -/
def boardSetup : Nat → Nat
  | 0 => 6 | 1 => 3 | 2 => 5 | 3 => 7
  | 4 => 4 | 5 => 5 | 6 => 3 | 7 => 6
  | _ => 0

/-- Strictness combinator: re-bind a natural number to its literal form
before continuing (evaluation-order annotation only; `seqNat n k = k n`). -/
def seqNat {α : Type} (n : Nat) (k : Nat → α) : α :=
  match n with
  | 0 => k 0
  | m + 1 => k (m + 1)

/-- Strictness combinator for integers (`seqInt i k = k i`). -/
def seqInt {α : Type} (i : Int) (k : Int → α) : α :=
  match i with
  | Int.ofNat n => seqNat n fun m => k (Int.ofNat m)
  | Int.negSucc n => seqNat n fun m => k (Int.negSucc m)

/-- Strictness combinator for the engine state: force the numeric fields
(evaluation-order annotation only; `forceState s k = k s`). -/
def forceState {α : Type} (s : EngineState) (k : EngineState → α) : α :=
  match s with
  | ⟨b, side, sc, ep, npm, sf, st, nc, nm, dm, ss, buf, bsz, num⟩ =>
    seqNat b fun b => seqNat side fun side => seqInt sc fun sc =>
    seqNat ep fun ep => seqInt npm fun npm => seqNat sf fun sf =>
    seqNat st fun st => seqNat nc fun nc => seqNat nm fun nm =>
    seqNat dm fun dm => seqNat bsz fun bsz => seqNat num fun num =>
    k ⟨b, side, sc, ep, npm, sf, st, nc, nm, dm, ss, buf, bsz, num⟩

/-- Thunked conditional (`ifP c t e = if c then t () else e ()`): the same
conditional, with both branches kept as thunks. -/
def ifP {γ : Type} (c : Prop) [Decidable c] (t e : Unit → γ) : γ :=
  if c then t () else e ()

/-- Strict pair destructuring (`seqPair (a, b) k = k a b`). -/
def seqPair {α β γ : Type} (p : α × β) (k : α → β → γ) : γ :=
  match p with
  | (a, b) => k a b

/-- Strict triple destructuring (`seqTriple (a, b, c) k = k a b c`). -/
def seqTriple {α β γ δ : Type} (p : α × β × γ) (k : α → β → γ → δ) : δ :=
  match p with
  | (a, b, c) => k a b c

/-- Recording one generated move in `MCUMAX_SEARCH_VALID_MOVES` mode
(`mcu-max.c` lines 483-489): write to the caller's buffer only below
capacity, count unconditionally. -/
def recordMove (s : EngineState) (m : Move) : EngineState :=
  { s with
    validMovesBuffer :=
      if s.validMovesNum < s.validMovesBufferSize then s.validMovesBuffer ++ [m]
      else s.validMovesBuffer,
    validMovesNum := s.validMovesNum + 1 }

/-- The committing state update of `MCUMAX_PLAY_MOVE` mode
(`mcu-max.c` lines 438-456), performed with the move still applied. -/
def commitPlay (score capturePieceValue : Int) (castlingSkipSquare : Nat)
    (s : EngineState) : EngineState :=
  { s with
    score := -score - capturePieceValue,
    enPassantSquare := castlingSkipSquare,
    nonPawnMaterial := s.nonPawnMaterial + capturePieceValue.fdiv 128,
    currentSide := s.currentSide ^^^ 0x18 }

/-- Type of the recursive search, abstracted for the loop helpers. -/
def SearchFn : Type :=
  Int → Int → Int → Nat → Nat → Mode → EngineState → Int × EngineState

/-- The null-move probe of one deepening iteration
(`mcu-max.c` lines 219-233): side toggled around a reduced-depth search. -/
def nullMoveProbe (rec : SearchFn) (beta score : Int) (iterDepth : Nat)
    (s : EngineState) : Int × EngineState :=
  match s with
  | ⟨b, side, sc, ep, npm, sf, st, nc, nm, dm, ss, buf, bsz, num⟩ =>
  seqPair (ifP (iterDepth > 2 ∧ beta ≠ -8000)
      (fun _ =>
        rec (-beta) (1 - beta) (-score) 0x80 (iterDepth - 3) Mode.internal
          ⟨b, side ^^^ 0x18, sc, ep, npm, sf, st, nc, nm, dm, ss, buf, bsz, num⟩)
      (fun _ =>
        ((8000 : Int),
         ⟨b, side ^^^ 0x18, sc, ep, npm, sf, st, nc, nm, dm, ss, buf, bsz,
          num⟩))) fun v s2 =>
    seqInt v fun v =>
    match s2 with
    | ⟨b2, side2, sc2, ep2, npm2, sf2, st2, nc2, nm2, dm2, ss2, buf2, bsz2, num2⟩ =>
      (v, ⟨b2, side2 ^^^ 0x18, sc2, ep2, npm2, sf2, st2, nc2, nm2, dm2, ss2, buf2,
           bsz2, num2⟩)

/-- The seed of `iter_score` computed from the null-move result
(`mcu-max.c` lines 235-241). -/
def iterSeed (nullMoveScore beta npm : Int) (iterDepth : Nat) (score : Int) : Int :=
  if -nullMoveScore < beta ∨ npm > 35 then
    (if iterDepth ≠ 2 then -8000 else score)
  else -nullMoveScore

/-- Loop state shared by the square-scan / ray loops of one deepening
iteration: `iter_depth`, `iter_score`, `iter_square_from`, `iter_square_to`,
`replay_move` and the engine state. -/
structure Iter where
  iterDepth : Nat
  iterScore : Int
  iterSquareFrom : Nat
  iterSquareTo : Nat
  replayMove : Nat
  s : EngineState
  deriving Repr

/-- Result of processing one ray destination. -/
inductive RayRes where
  | ret : Int → EngineState → RayRes
  | cutoff : Iter → RayRes
  | brk : Iter → RayRes
  | again : Iter → RayRes
  | step : Nat → Nat → Nat → Iter → RayRes
  deriving Repr

/-- Result of the vector/square-scan loops. -/
inductive ScanRes where
  | ret : Int → EngineState → ScanRes
  | cutoff : Iter → ScanRes
  | next : Iter → ScanRes
  deriving Repr

/-- Case analysis on a ray-step result. -/
def rayResCase {γ : Type} (r : RayRes) (kr : Int → EngineState → γ)
    (kc kb ka : Iter → γ) (ks : Nat → Nat → Nat → Iter → γ) : γ :=
  match r with
  | RayRes.ret v s => kr v s
  | RayRes.cutoff it => kc it
  | RayRes.brk it => kb it
  | RayRes.again it => ka it
  | RayRes.step a b c it => ks a b c it

/-- Case analysis on a scan-level result. -/
def scanResCase {γ : Type} (r : ScanRes) (kr : Int → EngineState → γ)
    (kc kn : Iter → γ) : γ :=
  match r with
  | ScanRes.ret v s => kr v s
  | ScanRes.cutoff it => kc it
  | ScanRes.next it => kn it

/-- The futility / re-search loop around the recursive evaluation of a reply
(`mcu-max.c` lines 409-429). -/
def futilityBody (rec : SearchFn) (alpha beta stepAlpha stepScore : Int)
    (css : Nat) (mode : Mode) (iterDepth : Nat)
    (ih : Nat → EngineState → Int × EngineState) (stepDepth : Nat)
    (s : EngineState) : Int × EngineState :=
    match s with
    | ⟨b, side, sc, ep, npm, sf, st, nc, nm, dm, ss, buf, bsz, num⟩ =>
    seqPair (ifP (mode = Mode.searchValidMoves ∨ stepDepth > 2 ∨ stepScore > stepAlpha)
        (fun _ =>
          seqPair (rec (-beta) (-stepAlpha) (-stepScore) css stepDepth Mode.internal
              ⟨b, side ^^^ 0x18, sc, ep, npm, sf, st, nc, nm, dm, ss, buf, bsz,
               num⟩)
            (fun v s2 => (-v, s2)))
        (fun _ =>
          (stepScore,
           (⟨b, side ^^^ 0x18, sc, ep, npm, sf, st, nc, nm, dm, ss, buf, bsz,
             num⟩ : EngineState)))) fun ssn s3 =>
      seqInt ssn fun ssn =>
      match s3 with
      | ⟨b3, side3, sc3, ep3, npm3, sf3, st3, nc3, nm3, dm3, ss3, buf3, bsz3, num3⟩ =>
      ifP (ssn > alpha ∧ stepDepth + 1 < iterDepth)
        (fun _ =>
          ih (stepDepth + 1)
            ⟨b3, side3 ^^^ 0x18, sc3, ep3, npm3, sf3, st3, nc3, nm3, dm3, ss3, buf3,
             bsz3, num3⟩)
        (fun _ =>
          (ssn,
           ⟨b3, side3 ^^^ 0x18, sc3, ep3, npm3, sf3, st3, nc3, nm3, dm3, ss3, buf3,
            bsz3, num3⟩))

/-- The futility / re-search loop around the recursive evaluation of a reply
(`mcu-max.c` lines 409-429). -/
def futilityLoop (rec : SearchFn) (ffuel : Nat) (alpha beta stepAlpha stepScore : Int)
    (css : Nat) (mode : Mode) (iterDepth : Nat) : Nat → EngineState → Int × EngineState :=
  Nat.rec (motive := fun _ => Nat → EngineState → Int × EngineState)
    (fun stepDepth s => (stepScore, s))
    (fun _ ih => futilityBody rec alpha beta stepAlpha stepScore css mode iterDepth ih)
    ffuel

/-- Tail of one ray destination after evaluation (`mcu-max.c` lines 492-533):
best-move update, replay restart, castling-rights / en-passant-enable probe,
and the synthetic capture that ends a leaper's ray. -/
def afterStep (squareFrom squareTo css crs pieceType : Nat) (sv svIndex : Int)
    (scanPiece capturePiece : Nat) (stepScore : Int) (iterDepth : Nat)
    (iterScore : Int) (iterSquareFrom iterSquareTo replayMove : Nat)
    (s : EngineState) : RayRes :=
  seqTriple (if stepScore > iterScore then
               (stepScore, squareFrom, squareTo ||| (css &&& 0x80))
             else (iterScore, iterSquareFrom, iterSquareTo))
    fun iterScore iterSquareFrom iterSquareTo =>
  ifP (replayMove ≠ 0)
    (fun _ =>
      RayRes.again ⟨iterDepth, iterScore, iterSquareFrom, iterSquareTo, 0, s⟩)
    (fun _ =>
    seqPair (if (squareFrom : Int) + sv - (squareTo : Int) ≠ 0 then (true, crs)
             else if scanPiece &&& 0x20 ≠ 0 then (true, crs)
             else if pieceType ≤ 2 then (false, crs)
             else if pieceType ≠ 4 then (true, crs)
             else if svIndex ≠ 7 then (true, crs)
             else
               let crsNew := (squareFrom + 3) ^^^ shrAnd7 sv
               if (getCell s.board crsNew : Int) - (s.currentSide : Int) - 6 ≠ 0 then
                 (true, crsNew)
               else if getCell s.board (crsNew ^^^ 1) ≠ 0 then (true, crsNew)
               else if getCell s.board (crsNew ^^^ 2) ≠ 0 then (true, crsNew)
               else (false, crsNew))
      fun blocked crs =>
    ifP (blocked = true)
      (fun _ =>
        seqNat (capturePiece + (if pieceType < 5 then 1 else 0)) fun capturePiece =>
        ifP (capturePiece = 0)
          (fun _ =>
            RayRes.step squareTo css crs
              ⟨iterDepth, iterScore, iterSquareFrom, iterSquareTo, replayMove, s⟩)
          (fun _ =>
            RayRes.brk ⟨iterDepth, iterScore, iterSquareFrom, iterSquareTo,
              replayMove, s⟩))
      (fun _ =>
        ifP (capturePiece = 0)
          (fun _ =>
            RayRes.step squareTo squareTo crs
              ⟨iterDepth, iterScore, iterSquareFrom, iterSquareTo, replayMove, s⟩)
          (fun _ =>
            RayRes.brk ⟨iterDepth, iterScore, iterSquareFrom, iterSquareTo,
              replayMove, s⟩)))

/-- One destination step of the ray loop (`mcu-max.c` lines 274-533). -/
def rayStep (rec : SearchFn) (alpha beta score : Int) (ep : Nat) (mode : Mode)
    (nullMoveScore : Int) (squareFrom scanPiece pieceType : Nat) (sv svIndex : Int)
    (squareTo css crs : Nat) (it : Iter) : RayRes :=
  match it with
  | ⟨itDepth0, itScore0, itFrom0, itTo0, itReplay0, s0⟩ =>
  forceState s0 fun s =>
  seqNat itDepth0 fun itDepth =>
  seqInt itScore0 fun itScore =>
  seqNat itFrom0 fun itFrom =>
  seqNat itTo0 fun itTo =>
  seqNat itReplay0 fun itReplay =>
  match s with
  | ⟨b, side, scG, epG, npm, sfG, stG, ncG, nmG, dmG, ssG, bufG, bszG, numG⟩ =>
  seqNat (if itReplay ≠ 0 then itTo ^^^ itReplay else u8 ((squareTo : Int) + sv))
    fun squareTo =>
  ifP (squareTo &&& 0x88 ≠ 0)
    (fun _ => RayRes.brk ⟨itDepth, itScore, itFrom, itTo, itReplay, s⟩)
    (fun _ =>
  seqInt (if ep ≠ 0x80 ∧ getCell b ep ≠ 0 ∧
             (squareTo : Int) - (ep : Int) < 2 ∧ (ep : Int) - (squareTo : Int) < 2
          then (8000 : Int) else itScore) fun itScore =>
  seqNat (if pieceType < 3 ∧ squareTo = ep then squareTo ^^^ 16 else squareTo)
    fun captureSquare =>
  seqNat (getCell b captureSquare) fun capturePiece =>
  ifP (capturePiece &&& side ≠ 0 ∨
       (pieceType < 3 ∧
        ¬((((squareTo : Int) - (squareFrom : Int)).emod 8 = 0) ↔ capturePiece = 0)))
    (fun _ => RayRes.brk ⟨itDepth, itScore, itFrom, itTo, itReplay, s⟩)
    (fun _ =>
  seqInt (37 * captureValues (capturePiece &&& 7) + ((capturePiece &&& 0xc0 : Nat) : Int))
    fun capturePieceValue =>
  seqPair (if capturePieceValue < 0 then ((8000 : Int), (98 : Nat))
           else (itScore, itDepth)) fun itScore itDepth =>
  ifP (itScore ≥ beta ∧ itDepth > 1)
    (fun _ => RayRes.cutoff ⟨itDepth, itScore, itFrom, itTo, itReplay, s⟩)
    (fun _ =>
  seqInt (if itDepth ≠ 1 then score else capturePieceValue - (pieceType : Int))
    fun stepScore =>
  ifP ((itDepth : Int) - (if capturePiece = 0 then 1 else 0) > 1)
    (fun _ =>
    seqInt (if pieceType < 6 then
              (getCell b (squareFrom + 8) : Int) - (getCell b (squareTo + 8) : Int)
            else 0) fun stepScore =>
    seqNat (setCell (setCell (setCell (setCell b squareFrom 0) captureSquare 0) crs 0)
              squareTo (scanPiece ||| 0x20)) fun b1 =>
    seqPair (if crs &&& 0x88 = 0 then (setCell b1 css (side + 6), stepScore + 50)
             else (b1, stepScore)) fun b1 stepScore =>
    seqNat b1 fun b1 =>
    seqInt (stepScore - (if pieceType ≠ 4 ∨ npm > 30 then 0 else 20)) fun stepScore =>
    seqTriple (if pieceType < 3 then
                 let t1 : Int :=
                   if intAnd0x88 ((squareFrom : Int) - 2) ≠ 0 ∨
                      (getCell b1 (squareFrom - 2) : Int) - (scanPiece : Int) ≠ 0
                   then 1 else 0
                 let t2 : Int :=
                   if (squareFrom + 2) &&& 0x88 ≠ 0 ∨
                      (getCell b1 (squareFrom + 2) : Int) - (scanPiece : Int) ≠ 0
                   then 1 else 0
                 let t3 : Int :=
                   if getCell b1 (squareFrom ^^^ 0x10) = side + 36 then 1 else 0
                 let promo : Nat :=
                   if intBit7 ((squareTo : Int) + sv + 1) then 647 - pieceType
                   else 2 * (scanPiece &&& (squareTo + 0x10) &&& 0x20)
                 (setCell b1 squareTo (getCell b1 squareTo + promo),
                  stepScore - (9 * (t1 + t2 - 1 + t3) - npm.fdiv 4),
                  capturePieceValue + (promo : Nat))
               else (b1, stepScore, capturePieceValue))
      fun b2 stepScore capturePieceValue =>
    seqNat b2 fun b2 =>
    seqInt stepScore fun stepScore =>
    seqInt capturePieceValue fun capturePieceValue =>
    seqInt (stepScore + score + capturePieceValue) fun stepScore =>
    seqInt (if itScore > alpha then itScore else alpha) fun stepAlpha =>
    seqNat (if npm ≤ 30 ∧ nullMoveScore = 8000 ∧ itDepth ≥ 3 ∧
               (capturePiece = 0 ∨ pieceType = 4)
            then itDepth
            else itDepth - 1 -
              (if itDepth > 5 ∧ pieceType > 2 ∧ capturePiece = 0 ∧ itReplay = 0
               then 1 else 0)) fun stepDepth =>
    seqPair (futilityLoop rec 300 alpha beta stepAlpha stepScore css mode itDepth
        stepDepth
        ⟨b2, side, scG, epG, npm, sfG, stG, ncG, nmG, dmG, ssG, bufG, bszG, numG⟩)
      fun stepScore2x s2 =>
    seqInt stepScore2x fun stepScore =>
    forceState s2 fun s2 =>
    match s2 with
    | ⟨bF, sideF, scF, epF, npmF, sfF, stF, ncF, nmF, dmF, ssF, bufF, bszF, numF⟩ =>
    ifP (mode = Mode.playMove ∧ stepScore ≠ -8000 ∧ squareFrom = sfF ∧ squareTo = stF)
      (fun _ => RayRes.ret beta (commitPlay score capturePieceValue css s2))
      (fun _ =>
    seqNat (setCell (setCell (setCell (setCell (setCell bF crs (sideF + 6)) squareTo 0)
              css 0) squareFrom scanPiece) captureSquare capturePiece) fun b3 =>
    ifP (mode = Mode.searchBestMove ∧ stepScore ≠ -8000 ∧ squareFrom = sfF ∧
         squareTo = stF)
      (fun _ => RayRes.ret beta
        ⟨b3, sideF, scF, epF, npmF, sfF, stF, ncF, nmF, dmF, ssF, bufF, bszF, numF⟩)
      (fun _ =>
      (fun s4 =>
        afterStep squareFrom squareTo css crs pieceType sv svIndex scanPiece
          capturePiece stepScore itDepth itScore itFrom itTo itReplay s4)
        (if mode = Mode.searchValidMoves ∧ stepScore ≠ -8000 ∧ sfF = 0x80 ∧
            itDepth = 3 ∧ itReplay = 0
         then recordMove
           ⟨b3, sideF, scF, epF, npmF, sfF, stF, ncF, nmF, dmF, ssF, bufF, bszF, numF⟩
           ⟨squareFrom, squareTo⟩
         else ⟨b3, sideF, scF, epF, npmF, sfF, stF, ncF, nmF, dmF, ssF, bufF, bszF,
               numF⟩))))
    (fun _ =>
    afterStep squareFrom squareTo css crs pieceType sv svIndex scanPiece capturePiece
      stepScore itDepth itScore itFrom itTo itReplay s))))

/-- The ray traversal loop (`y` loop, `mcu-max.c` lines 273-533), including
the `replay` restart. -/
def rayBody (rec : SearchFn) (alpha beta score : Int) (ep : Nat)
    (mode : Mode) (nullMoveScore : Int) (squareFrom scanPiece pieceType : Nat)
    (sv svIndex : Int) (ih : Nat → Nat → Nat → Iter → ScanRes)
    (squareTo css crs : Nat) (it : Iter) : ScanRes :=
  rayResCase (rayStep rec alpha beta score ep mode nullMoveScore squareFrom scanPiece
      pieceType sv svIndex squareTo css crs it)
    (fun v s => ScanRes.ret v s)
    (fun it => ScanRes.cutoff it)
    (fun it => ScanRes.next it)
    (fun it => ih squareFrom 0x80 0x80 it)
    (fun squareTo css crs it => ih squareTo css crs it)

/-- The ray traversal loop (`y` loop, `mcu-max.c` lines 273-533), including
the `replay` restart. -/
def rayLoop (rec : SearchFn) (rfuel : Nat) (alpha beta score : Int) (ep : Nat)
    (mode : Mode) (nullMoveScore : Int) (squareFrom scanPiece pieceType : Nat)
    (sv svIndex : Int) : Nat → Nat → Nat → Iter → ScanRes :=
  Nat.rec (motive := fun _ => Nat → Nat → Nat → Iter → ScanRes)
    (fun squareTo css crs it => ScanRes.next it)
    (fun _ ih => rayBody rec alpha beta score ep mode nullMoveScore squareFrom
      scanPiece pieceType sv svIndex ih)
    rfuel

/-- Body of one iteration of the step-vector loop. -/
def vectorBody (rec : SearchFn) (alpha beta score : Int) (ep : Nat)
    (mode : Mode) (nullMoveScore : Int) (squareFrom scanPiece pieceType : Nat)
    (ih : Int → Int → Iter → ScanRes) (sv svIndex : Int) (it : Iter) : ScanRes :=
  seqPair (if pieceType > 2 ∧ sv < 0 then (-sv, svIndex)
           else (-(stepVectors (svIndex + 1).toNat), svIndex + 1)) fun sv svIndex =>
  seqInt sv fun sv =>
  seqInt svIndex fun svIndex =>
  ifP (sv = 0) (fun _ => ScanRes.next it)
    (fun _ =>
      scanResCase (rayLoop rec 40 alpha beta score ep mode nullMoveScore squareFrom
          scanPiece pieceType sv svIndex squareFrom 0x80 0x80 it)
        (fun v s => ScanRes.ret v s)
        (fun it => ScanRes.cutoff it)
        (fun it => ih sv svIndex it))

/-- The step-vector loop of one scanned square (`mcu-max.c` lines 260-534). -/
def vectorLoop (rec : SearchFn) (vfuel : Nat) (alpha beta score : Int) (ep : Nat)
    (mode : Mode) (nullMoveScore : Int) (squareFrom scanPiece pieceType : Nat) :
    Int → Int → Iter → ScanRes :=
  Nat.rec (motive := fun _ => Int → Int → Iter → ScanRes)
    (fun sv svIndex it => ScanRes.next it)
    (fun _ ih => vectorBody rec alpha beta score ep mode nullMoveScore squareFrom
      scanPiece pieceType ih)
    vfuel

/-- Processing of one scanned square (`mcu-max.c` lines 247-535). -/
def scanSquare (rec : SearchFn) (alpha beta score : Int) (ep : Nat) (mode : Mode)
    (nullMoveScore : Int) (squareFrom : Nat) (it : Iter) : ScanRes :=
  match it with
  | ⟨itD, itS, itF, itT, itR, s⟩ =>
  match s with
  | ⟨b, side, sc, epG, npm, sf, st, nc, nm, dm, ss, buf, bsz, num⟩ =>
  seqNat (getCell b squareFrom) fun scanPiece =>
  ifP (scanPiece &&& side ≠ 0)
    (fun _ =>
      seqNat (scanPiece &&& 7) fun pieceType =>
      vectorLoop rec 40 alpha beta score ep mode nullMoveScore squareFrom scanPiece
        pieceType (pieceType : Int) (stepVectorsIndices pieceType)
        ⟨itD, itS, itF, itT, itR, s⟩)
    (fun _ => ScanRes.next ⟨itD, itS, itF, itT, itR, s⟩)

/-- Body of one iteration of the board-scan loop. -/
def scanBody (rec : SearchFn) (alpha beta score : Int) (ep : Nat)
    (mode : Mode) (nullMoveScore : Int) (ih : Nat → Nat → Iter → ScanRes)
    (squareFrom squareStart : Nat) (it : Iter) : ScanRes :=
  scanResCase (scanSquare rec alpha beta score ep mode nullMoveScore squareFrom it)
    (fun v s => ScanRes.ret v s)
    (fun it => ScanRes.cutoff it)
    (fun it =>
      seqNat ((squareFrom + 9) &&& 0x77) fun squareFrom2 =>
      ifP (squareFrom2 = squareStart) (fun _ => ScanRes.next it)
        (fun _ => ih squareFrom2 squareStart it))

/-- The board-scan loop (`mcu-max.c` lines 246-539): stride +9 through the
0x88 layout until the start square is reached again. -/
def scanLoop (rec : SearchFn) (sfuel : Nat) (alpha beta score : Int) (ep : Nat)
    (mode : Mode) (nullMoveScore : Int) : Nat → Nat → Iter → ScanRes :=
  Nat.rec (motive := fun _ => Nat → Nat → Iter → ScanRes)
    (fun squareFrom squareStart it => ScanRes.next it)
    (fun _ ih => scanBody rec alpha beta score ep mode nullMoveScore ih)
    sfuel

/-- Body of one pass of the iterative-deepening loop (`mcu-max.c` lines
194-573), including the side-effecting loop condition (`iter_depth++`, and
the root commit of the best move found when the node/depth budget is
exhausted), the `stop_search` break, and the (stale)mate rescoring after
each scan. -/
def deepeningBody (rec : SearchFn) (alpha beta score : Int)
    (ep depth : Nat) (mode : Mode)
    (ih : Nat → Int → Nat → Nat → EngineState → Int × EngineState)
    (iterDepth : Nat) (iterScore : Int) (iterSquareFrom iterSquareTo : Nat)
    (s : EngineState) : Int × EngineState :=
    seqNat iterDepth fun iterDepth =>
    seqInt iterScore fun iterScore =>
    seqNat iterSquareFrom fun iterSquareFrom =>
    seqNat iterSquareTo fun iterSquareTo =>
    forceState s fun s =>
    seqNat (u8n (iterDepth + 1)) fun iterDepthNew =>
    match s with
    | ⟨bG, sideG, scG, epG, npmG, sfG, stG, ncG, nmG, dmG, ssG, bufG, bszG, numG⟩ =>
    seqTriple (if iterDepth < depth then
                 ((true, iterDepthNew,
                   ⟨bG, sideG, scG, epG, npmG, sfG, stG, ncG, nmG, dmG, ssG, bufG,
                    bszG, numG⟩) : Bool × Nat × EngineState)
           else if iterDepthNew < 3 then
             (true, iterDepthNew,
              ⟨bG, sideG, scG, epG, npmG, sfG, stG, ncG, nmG, dmG, ssG, bufG, bszG,
               numG⟩)
           else if mode ≠ Mode.internal ∧ sfG = 0x80 then
             if ncG < nmG ∧ iterDepthNew ≤ dmG then
               (true, iterDepthNew,
                ⟨bG, sideG, scG, epG, npmG, sfG, stG, ncG, nmG, dmG, ssG, bufG, bszG,
                 numG⟩)
             else
               (true, 3,
                ⟨bG, sideG, scG, epG, npmG, iterSquareFrom, iterSquareTo &&& 0x77,
                 ncG, nmG, dmG, ssG, bufG, bszG, numG⟩)
           else
             (false, iterDepthNew,
              ⟨bG, sideG, scG, epG, npmG, sfG, stG, ncG, nmG, dmG, ssG, bufG, bszG,
               numG⟩)) fun cont iterDepth2 s2 =>
    ifP (cont = true)
      (fun _ =>
      ifP (s2.stopSearch = true)
        (fun _ => (iterScore + (if iterScore < score then 1 else 0), s2))
        (fun _ =>
        seqPair (nullMoveProbe rec beta score iterDepth2 s2) fun nullMoveScore s3 =>
        seqInt nullMoveScore fun nullMoveScore =>
        seqInt (iterSeed nullMoveScore beta s3.nonPawnMaterial iterDepth2 score)
          fun iterScore2 =>
        match s3 with
        | ⟨b3, side3, sc3, ep3, npm3, sf3, st3, nc3, nm3, dm3, ss3, buf3, bsz3, num3⟩ =>
        scanResCase (scanLoop rec 70 alpha beta score ep mode nullMoveScore
            (if mode ≠ Mode.searchValidMoves then iterSquareFrom else 0)
            (if mode ≠ Mode.searchValidMoves then iterSquareFrom else 0)
            ⟨iterDepth2, iterScore2, iterSquareFrom, iterSquareTo,
             iterSquareTo &&& 0x80,
             ⟨b3, side3, sc3, ep3, npm3, sf3, st3, (nc3 + 1) % 4294967296, nm3, dm3,
              ss3, buf3, bsz3, num3⟩⟩)
          (fun v s => (v, s))
          (fun it =>
            match it with
            | ⟨itD, itS, itF, itT, _, itState⟩ =>
              ih itD (if itS = -8000 ∧ nullMoveScore ≠ 8000 then 0 else itS) itF itT
                itState)
          (fun it =>
            match it with
            | ⟨itD, itS, itF, itT, _, itState⟩ =>
              ih itD (if itS = -8000 ∧ nullMoveScore ≠ 8000 then 0 else itS) itF itT
                itState)))
      (fun _ => (iterScore + (if iterScore < score then 1 else 0), s2))

/-- The iterative-deepening loop (`mcu-max.c` lines 194-573). -/
def deepeningLoop (rec : SearchFn) (idFuel : Nat) (alpha beta score : Int)
    (ep depth : Nat) (mode : Mode) :
    Nat → Int → Nat → Nat → EngineState → Int × EngineState :=
  Nat.rec (motive := fun _ => Nat → Int → Nat → Nat → EngineState → Int × EngineState)
    (fun iterDepth iterScore iterSquareFrom iterSquareTo s =>
      (iterScore + (if iterScore < score then 1 else 0), s))
    (fun _ ih => deepeningBody rec alpha beta score ep depth mode ih)
    idFuel

/-- The body of `mcumax_search` (window adjustment at entry, then the
deepening loop with all iteration variables cleared). -/
def searchBody (rec : SearchFn) (idFuel : Nat) (alpha beta score : Int)
    (ep depth : Nat) (mode : Mode) (s : EngineState) : Int × EngineState :=
  seqInt (alpha - (if alpha < score then 1 else 0)) fun alpha =>
  seqInt (beta - (if beta ≤ score then 1 else 0)) fun beta =>
  deepeningLoop rec idFuel alpha beta score ep depth mode 0 0 0 0 s

/-- `mcumax_search`, with fuel bounding the recursion depth and the number
of deepening passes; exhausted fuel returns with the state untouched. -/
def mcumaxSearch (fuel : Nat) : SearchFn :=
  Nat.rec (motive := fun _ => SearchFn)
    (fun _ _ score _ _ _ s => (score, s))
    (fun fuel rec alpha beta score ep depth mode s =>
      searchBody rec (fuel + 1) alpha beta score ep depth mode s)
    fuel

/-- `mcumax_start_search`. -/
def mcumaxStartSearch (fuel : Nat) (mode : Mode) (move : Move)
    (depthMax nodeMax : Nat) (s : EngineState) : Int × EngineState :=
  match s with
  | ⟨b, side, sc, ep, npm, _, _, _, _, _, _, buf, bsz, num⟩ =>
  mcumaxSearch fuel (-8000) 8000 sc ep 3 mode
    ⟨b, side, sc, ep, npm, move.fromSq, move.toSq, 0, nodeMax, depthMax, false, buf,
     bsz, num⟩

/-- `mcumax_search_valid_moves`: returns the count and the final state
(the written buffer entries are `validMovesBuffer` of the state). -/
def mcumaxSearchValidMoves (fuel : Nat) (bufferSize : Nat) (s : EngineState) :
    Nat × EngineState :=
  match s with
  | ⟨b, side, sc, ep, npm, sf, st, nc, nm, dm, ss, _, _, _⟩ =>
  seqPair (mcumaxStartSearch fuel Mode.searchValidMoves ⟨0x80, 0x80⟩ 0 0
      ⟨b, side, sc, ep, npm, sf, st, nc, nm, dm, ss, [], bufferSize, 0⟩)
    fun _ s2 => (s2.validMovesNum, s2)

/-- `mcumax_search_best_move`. -/
def mcumaxSearchBestMove (fuel : Nat) (nodeMax depthMax : Nat) (s : EngineState) :
    Move × EngineState :=
  seqPair (mcumaxStartSearch fuel Mode.searchBestMove ⟨0x80, 0x80⟩ (depthMax + 3)
      nodeMax s)
    fun v s2 => (if v = 8000 then ⟨s2.squareFrom, s2.squareTo⟩ else ⟨0x80, 0x80⟩, s2)

/-- `mcumax_play_move`. -/
def mcumaxPlayMove (fuel : Nat) (move : Move) (s : EngineState) :
    Bool × EngineState :=
  seqPair (mcumaxStartSearch fuel Mode.playMove move 0 0 s)
    fun v s2 => (v = 8000, s2)

/-- `mcumax_init`: standard start position, the positional-weight shadow
board, white to move, cleared scalars.  Only the fields the C function
writes are touched. -/
def mcumaxInit (s : EngineState) : EngineState :=
  let b := (List.range 8).foldl (fun b x =>
    let b := setCell b x (0x10 ||| boardSetup x)
    let b := setCell b (0x10 + x) (0x10 ||| 2)
    let b := (List.range 4).foldl (fun b i => setCell b (0x10 * (2 + i) + x) 0) b
    let b := setCell b (0x60 + x) (0x8 ||| 1)
    let b := setCell b (0x70 + x) (0x8 ||| boardSetup x)
    (List.range 8).foldl (fun b y =>
      setCell b (16 * y + x + 8)
        (u8 (((x : Int) - 4) * ((x : Int) - 4) + ((y : Int) - 4) * ((y : Int) - 3)))) b)
    s.board
  { s with board := b, currentSide := 0x8, score := 0,
           enPassantSquare := 0x80, nonPawnMaterial := 0 }

/-- The all-zero engine state (the zero-initialised C global before use). -/
def zeroState : EngineState :=
  ⟨0, 0, 0, 0, 0, 0, 0, 0, 0, 0, false, [], 0, 0⟩

/-- The engine state after `mcumax_init()` on the fresh global. -/
def startState : EngineState := mcumaxInit zeroState

/-- `mcumax_set_piece`. -/
def mcumaxSetPiece (s : EngineState) (square piece : Nat) : EngineState × Nat :=
  if square &&& 0x88 ≠ 0 then (s, square)
  else
    ({ s with board := setCell s.board square (if piece = 0 then 0 else piece ||| 0x20) },
     square + 1)

/-- `mcumax_get_piece`. -/
def mcumaxGetPiece (s : EngineState) (square : Nat) : Nat :=
  if square &&& 0x88 ≠ 0 then 0
  else (getCell s.board square &&& 0xf) ^^^ 0x8

/-- Clearing the has-moved bit (`board[sq] &= ~MCUMAX_PIECE_MOVED`). -/
def clearMoved (b sq : Nat) : Nat := setCell b sq (getCell b sq &&& 0xdf)

/-- One character step of the FEN parser of `mcumax_set_fen_position`
(state: engine state, field index, board index). -/
def fenStep (acc : EngineState × Nat × Nat) (c : Char) : EngineState × Nat × Nat :=
  let s := acc.1
  let fieldIndex := acc.2.1
  let boardIndex := acc.2.2
  let n := c.toNat
  if n = 32 then
    (s, (if fieldIndex < 4 then fieldIndex + 1 else fieldIndex), boardIndex)
  else if fieldIndex = 0 then
    if boardIndex < 0x80 then
      if 49 ≤ n ∧ n ≤ 56 then
        let r := (List.range (n - 48)).foldl
          (fun (p : EngineState × Nat) _ => mcumaxSetPiece p.1 p.2 0) (s, boardIndex)
        (r.1, fieldIndex, r.2)
      else if n = 80 then let r := mcumaxSetPiece s boardIndex (1 ||| 0x8); (r.1, fieldIndex, r.2)
      else if n = 78 then let r := mcumaxSetPiece s boardIndex (3 ||| 0x8); (r.1, fieldIndex, r.2)
      else if n = 66 then let r := mcumaxSetPiece s boardIndex (5 ||| 0x8); (r.1, fieldIndex, r.2)
      else if n = 82 then let r := mcumaxSetPiece s boardIndex (6 ||| 0x8); (r.1, fieldIndex, r.2)
      else if n = 81 then let r := mcumaxSetPiece s boardIndex (7 ||| 0x8); (r.1, fieldIndex, r.2)
      else if n = 75 then let r := mcumaxSetPiece s boardIndex (4 ||| 0x8); (r.1, fieldIndex, r.2)
      else if n = 112 then let r := mcumaxSetPiece s boardIndex (2 ||| 0x10); (r.1, fieldIndex, r.2)
      else if n = 110 then let r := mcumaxSetPiece s boardIndex (3 ||| 0x10); (r.1, fieldIndex, r.2)
      else if n = 98 then let r := mcumaxSetPiece s boardIndex (5 ||| 0x10); (r.1, fieldIndex, r.2)
      else if n = 114 then let r := mcumaxSetPiece s boardIndex (6 ||| 0x10); (r.1, fieldIndex, r.2)
      else if n = 113 then let r := mcumaxSetPiece s boardIndex (7 ||| 0x10); (r.1, fieldIndex, r.2)
      else if n = 107 then let r := mcumaxSetPiece s boardIndex (4 ||| 0x10); (r.1, fieldIndex, r.2)
      else if n = 47 then
        (s, fieldIndex, if boardIndex < 0x80 then (boardIndex &&& 0xf0) + 0x10 else boardIndex)
      else (s, fieldIndex, boardIndex)
    else (s, fieldIndex, boardIndex)
  else if fieldIndex = 1 then
    if n = 119 then ({ s with currentSide := 0x8 }, fieldIndex, boardIndex)
    else if n = 98 then ({ s with currentSide := 0x10 }, fieldIndex, boardIndex)
    else (s, fieldIndex, boardIndex)
  else if fieldIndex = 2 then
    if n = 75 then
      ({ s with board := clearMoved (clearMoved s.board 0x74) 0x77 }, fieldIndex, boardIndex)
    else if n = 81 then
      ({ s with board := clearMoved (clearMoved s.board 0x74) 0x70 }, fieldIndex, boardIndex)
    else if n = 107 then
      ({ s with board := clearMoved (clearMoved s.board 0x04) 0x07 }, fieldIndex, boardIndex)
    else if n = 113 then
      ({ s with board := clearMoved (clearMoved s.board 0x04) 0x00 }, fieldIndex, boardIndex)
    else (s, fieldIndex, boardIndex)
  else if fieldIndex = 3 then
    if 97 ≤ n ∧ n ≤ 104 then
      ({ s with enPassantSquare := (s.enPassantSquare &&& 0x7f) ||| (n - 97) },
       fieldIndex, boardIndex)
    else if 49 ≤ n ∧ n ≤ 56 then
      ({ s with enPassantSquare := (s.enPassantSquare &&& 0x7f) ||| (16 * (56 - n)) },
       fieldIndex, boardIndex)
    else (s, fieldIndex, boardIndex)
  else (s, fieldIndex, boardIndex)

/-- `mcumax_set_fen_position`: `mcumax_init` then a character walk. -/
def mcumaxSetFenPosition (fen : List Char) (s : EngineState) : EngineState :=
  (fen.foldl fenStep (mcumaxInit s, 0, 0)).1

/-- The square scan order of the king search in `is_in_check`
(outer rank loop `y`, inner file loop `x`, first match wins). -/
def checkScanSquares : List Nat :=
  (List.range 64).map (fun i => i / 8 * 16 + i % 8)

/-- The king-locating scan of `is_in_check` (`mcu-max.c` lines 897-907). -/
def findKingSquare (b kingMask : Nat) : Nat :=
  (checkScanSquares.find? (fun sq =>
    (getCell b sq &&& kingMask != 0) && (getCell b sq &&& 7 == 4))).getD 0x80

/-- One sliding ray of the `is_in_check` scan (`mcu-max.c` lines 916-945);
`ortho` tells whether the direction index is < 4 (rook/queen directions). -/
def checkRayBody (b enemyMask : Nat) (ortho : Bool) (d : Int)
    (ih : Int → Bool) (cur0 : Int) : Bool :=
  seqInt (cur0 + d) fun cur =>
  if intAnd0x88 cur ≠ 0 then false
  else
    let raw := getCell b cur.toNat
    if raw ≠ 0 then
      decide (raw &&& enemyMask ≠ 0 ∧
        (if ortho then raw &&& 7 = 6 ∨ raw &&& 7 = 7
         else raw &&& 7 = 5 ∨ raw &&& 7 = 7))
    else ih cur

/-- One sliding ray of the `is_in_check` scan (`mcu-max.c` lines 916-945). -/
def checkRayGo (b enemyMask : Nat) (ortho : Bool) (d : Int) (fuel : Nat) :
    Int → Bool :=
  Nat.rec (motive := fun _ => Int → Bool)
    (fun _ => false)
    (fun _ ih => checkRayBody b enemyMask ortho d ih)
    fuel

/-- `is_in_check`. -/
def isInCheck (s : EngineState) (side : Nat) : Bool :=
  let kingMask := if side = 0x8 then 0x8 else 0x10
  let enemyMask := if side = 0x8 then 0x10 else 0x8
  let kingSquare := findKingSquare s.board kingMask
  if kingSquare = 0x80 then false
  else
    let b := s.board
    let dirs : List (Int × Bool) :=
      [(1, true), (-1, true), (16, true), (-16, true),
       (15, false), (-15, false), (17, false), (-17, false)]
    if dirs.any (fun p => checkRayGo b enemyMask p.2 p.1 10 (kingSquare : Int)) then true
    else if ([14, 18, 31, 33, -14, -18, -31, -33] : List Int).any (fun d =>
        let sq := (kingSquare : Int) + d
        intAnd0x88 sq = 0 &&
          (getCell b sq.toNat &&& enemyMask != 0) && (getCell b sq.toNat &&& 7 == 3)) then
      true
    else if (let pawnDir : Int := if side = 0x8 then -16 else 16
             ([pawnDir - 1, pawnDir + 1] : List Int).any (fun a =>
               let sq := (kingSquare : Int) + a
               intAnd0x88 sq = 0 &&
                 (getCell b sq.toNat &&& enemyMask != 0) &&
                 (if side = 0x8 then getCell b sq.toNat &&& 7 == 2
                  else getCell b sq.toNat &&& 7 == 1))) then
      true
    else if ([1, -1, 16, -16, 15, -15, 17, -17] : List Int).any (fun d =>
        let sq := (kingSquare : Int) + d
        intAnd0x88 sq = 0 &&
          (getCell b sq.toNat &&& enemyMask != 0) && (getCell b sq.toNat &&& 7 == 4)) then
      true
    else false

def SPres (s t : EngineState) : Prop :=
  t.currentSide = s.currentSide ∧ t.score = s.score ∧
  t.enPassantSquare = s.enPassantSquare ∧ t.nonPawnMaterial = s.nonPawnMaterial

def lenInv (s : EngineState) : Prop :=
  s.validMovesBuffer.length = min s.validMovesNum s.validMovesBufferSize

def WB (s t : EngineState) : Prop :=
  t.validMovesBufferSize = s.validMovesBufferSize ∧ (lenInv s → lenInv t)

def W1 (mode : Mode) (s t : EngineState) : Prop :=
  WB s t ∧ (mode ≠ Mode.playMove → SPres s t)

def RecW1 (rec : SearchFn) : Prop :=
  ∀ a b sc ep d s, W1 Mode.internal s (rec a b sc ep d Mode.internal s).2

/-- Walk conclusion for a search-level result pair. -/
def PairW1 (mode : Mode) (s0 : EngineState) (r : Int × EngineState) : Prop :=
  W1 mode s0 r.2

/-- Walk conclusion for a ray-step result. -/
def RayResW1 (mode : Mode) (s0 : EngineState) : RayRes → Prop
  | RayRes.ret _ t => W1 mode s0 t
  | RayRes.cutoff it => W1 mode s0 it.s
  | RayRes.brk it => W1 mode s0 it.s
  | RayRes.again it => W1 mode s0 it.s
  | RayRes.step _ _ _ it => W1 mode s0 it.s

/-- Walk conclusion for a scan-level result. -/
def ScanResW1 (mode : Mode) (s0 : EngineState) : ScanRes → Prop
  | ScanRes.ret _ t => W1 mode s0 t
  | ScanRes.cutoff it => W1 mode s0 it.s
  | ScanRes.next it => W1 mode s0 it.s

/-- Equality of engine states on every field except the caller-owned
valid-move buffer and its capacity. -/
def EqB (s t : EngineState) : Prop :=
  s.board = t.board ∧ s.currentSide = t.currentSide ∧ s.score = t.score ∧
  s.enPassantSquare = t.enPassantSquare ∧ s.nonPawnMaterial = t.nonPawnMaterial ∧
  s.squareFrom = t.squareFrom ∧ s.squareTo = t.squareTo ∧
  s.nodeCount = t.nodeCount ∧ s.nodeMax = t.nodeMax ∧ s.depthMax = t.depthMax ∧
  s.stopSearch = t.stopSearch ∧ s.validMovesNum = t.validMovesNum

/-- Relational conclusion on search-result pairs. -/
def PairR (r r2 : Int × EngineState) : Prop :=
  r.1 = r2.1 ∧ EqB r.2 r2.2

/-- The recursive search relates buffer-equivalent states. -/
def RecR (rec : SearchFn) : Prop :=
  ∀ a b sc ep d s s2, EqB s s2 →
    PairR (rec a b sc ep d Mode.internal s) (rec a b sc ep d Mode.internal s2)

/-- Iteration states equal except for the buffers. -/
def IterR (i j : Iter) : Prop :=
  i.iterDepth = j.iterDepth ∧ i.iterScore = j.iterScore ∧
  i.iterSquareFrom = j.iterSquareFrom ∧ i.iterSquareTo = j.iterSquareTo ∧
  i.replayMove = j.replayMove ∧ EqB i.s j.s

/-- Relational conclusion on ray-step results. -/
def RayR : RayRes → RayRes → Prop
  | RayRes.ret v s, RayRes.ret v2 s2 => v = v2 ∧ EqB s s2
  | RayRes.cutoff i, RayRes.cutoff j => IterR i j
  | RayRes.brk i, RayRes.brk j => IterR i j
  | RayRes.again i, RayRes.again j => IterR i j
  | RayRes.step a b c i, RayRes.step a2 b2 c2 j =>
      a = a2 ∧ b = b2 ∧ c = c2 ∧ IterR i j
  | _, _ => False

/-- Relational conclusion on scan-level results. -/
def ScanR : ScanRes → ScanRes → Prop
  | ScanRes.ret v s, ScanRes.ret v2 s2 => v = v2 ∧ EqB s s2
  | ScanRes.cutoff i, ScanRes.cutoff j => IterR i j
  | ScanRes.next i, ScanRes.next j => IterR i j
  | _, _ => False

/-- Toggling the side-to-move flag pair (`current_side ^= 0x18`). -/
def toggleSide (s : EngineState) : EngineState :=
  { s with currentSide := s.currentSide ^^^ 0x18 }

/-- Lone kings: white king a1, black king h8, white to move. -/
def fenT1 : EngineState :=
  mcumaxSetFenPosition ("7k/8/8/8/8/8/8/K7 w - - 0 1".toList) zeroState

/-- Black king a8 en prise to the white queen a7, white to move. -/
def fenKQ : EngineState :=
  mcumaxSetFenPosition ("k7/Q7/8/8/8/8/8/K7 w - - 0 1".toList) zeroState

/-- Lone kings with the nonsensical en-passant field "a1". -/
def fenEP : EngineState :=
  mcumaxSetFenPosition ("7k/8/8/8/8/8/8/K7 w - a1 0 1".toList) zeroState

/-- White pawn on h1 with the castling field "K" clearing h1's moved bit. -/
def fenPH1 : EngineState :=
  mcumaxSetFenPosition ("7k/8/8/8/8/8/8/K6P w K - 0 1".toList) zeroState

/-- White pawn on its ordinary second-rank square a2, no castling rights. -/
def fenPA2 : EngineState :=
  mcumaxSetFenPosition ("7k/8/8/8/8/8/P7/K7 w - - 0 1".toList) zeroState

/-- `mcumax_get_piece` as the specification words it: off-board is empty,
otherwise the low nibble of the cell XOR-ed with the black flag 0x8. -/
def specGetPiece (b sq : Nat) : Nat :=
  if sq &&& 0x88 ≠ 0 then 0 else (getCell b sq &&& 0xf) ^^^ 0x8

/-! ## Theorems -/

theorem seqNat_eq {α : Type} (n : Nat) (k : Nat → α) : seqNat n k = k n := by
  cases n <;> rfl

theorem seqInt_eq {α : Type} (i : Int) (k : Int → α) : seqInt i k = k i := by
  cases i <;> simp [seqInt, seqNat_eq]

theorem forceState_eq {α : Type} (s : EngineState) (k : EngineState → α) :
    forceState s k = k s := by
  cases s
  simp [forceState, seqNat_eq, seqInt_eq]

theorem ifP_eq {γ : Type} (c : Prop) [inst : Decidable c] (t e : Unit → γ) :
    ifP c t e = if c then t () else e () := rfl

theorem seqPair_eq {α β γ : Type} (a : α) (b : β) (k : α → β → γ) :
    seqPair (a, b) k = k a b := rfl

theorem seqTriple_eq {α β γ δ : Type} (a : α) (b : β) (c : γ)
    (k : α → β → γ → δ) : seqTriple (a, b, c) k = k a b c := rfl

theorem seqNat_elim {α : Type} {P : α → Prop} (n : Nat) (k : Nat → α)
    (h : P (k n)) : P (seqNat n k) := by rw [seqNat_eq]; exact h

theorem seqInt_elim {α : Type} {P : α → Prop} (i : Int) (k : Int → α)
    (h : P (k i)) : P (seqInt i k) := by rw [seqInt_eq]; exact h

theorem forceState_elim {α : Type} {P : α → Prop} (s : EngineState)
    (k : EngineState → α) (h : P (k s)) : P (forceState s k) := by
  rw [forceState_eq]; exact h

theorem ifP_elim {γ : Type} {P : γ → Prop} (c : Prop) [inst : Decidable c]
    (t e : Unit → γ) (h1 : c → P (t ())) (h2 : ¬c → P (e ())) : P (ifP c t e) := by
  unfold ifP
  split
  next h => exact h1 h
  next h => exact h2 h

theorem seqPair_elim {α β γ : Type} {P : γ → Prop} (p : α × β) (k : α → β → γ)
    (h : ∀ a b, p = (a, b) → P (k a b)) : P (seqPair p k) := by
  obtain ⟨a, b⟩ := p
  exact h a b rfl

theorem seqTriple_elim {α β γ δ : Type} {P : δ → Prop} (p : α × β × γ)
    (k : α → β → γ → δ) (h : ∀ a b c, p = (a, b, c) → P (k a b c)) :
    P (seqTriple p k) := by
  obtain ⟨a, b, c⟩ := p
  exact h a b c rfl

theorem rayResCase_elim {γ : Type} {P : γ → Prop} (r : RayRes)
    (kr : Int → EngineState → γ) (kc kb ka : Iter → γ)
    (ks : Nat → Nat → Nat → Iter → γ)
    (hr : ∀ v s, r = RayRes.ret v s → P (kr v s))
    (hc : ∀ it, r = RayRes.cutoff it → P (kc it))
    (hb : ∀ it, r = RayRes.brk it → P (kb it))
    (ha : ∀ it, r = RayRes.again it → P (ka it))
    (hs : ∀ a b c it, r = RayRes.step a b c it → P (ks a b c it)) :
    P (rayResCase r kr kc kb ka ks) := by
  cases r with
  | ret v s => exact hr v s rfl
  | cutoff it => exact hc it rfl
  | brk it => exact hb it rfl
  | again it => exact ha it rfl
  | step a b c it => exact hs a b c it rfl

theorem scanResCase_elim {γ : Type} {P : γ → Prop} (r : ScanRes)
    (kr : Int → EngineState → γ) (kc kn : Iter → γ)
    (hr : ∀ v s, r = ScanRes.ret v s → P (kr v s))
    (hc : ∀ it, r = ScanRes.cutoff it → P (kc it))
    (hn : ∀ it, r = ScanRes.next it → P (kn it)) :
    P (scanResCase r kr kc kn) := by
  cases r with
  | ret v s => exact hr v s rfl
  | cutoff it => exact hc it rfl
  | next it => exact hn it rfl

theorem SPres_refl (s : EngineState) : SPres s s := ⟨rfl, rfl, rfl, rfl⟩

theorem SPres_trans {s t u : EngineState} (h1 : SPres s t) (h2 : SPres t u) :
    SPres s u := by
  obtain ⟨a1, b1, c1, d1⟩ := h1
  obtain ⟨a2, b2, c2, d2⟩ := h2
  exact ⟨a2.trans a1, b2.trans b1, c2.trans c1, d2.trans d1⟩

theorem WB_refl (s : EngineState) : WB s s := ⟨rfl, id⟩

theorem WB_trans {s t u : EngineState} (h1 : WB s t) (h2 : WB t u) : WB s u :=
  ⟨h2.1.trans h1.1, fun h => h2.2 (h1.2 h)⟩

theorem W1_refl (mode : Mode) (s : EngineState) : W1 mode s s :=
  ⟨WB_refl s, fun _ => SPres_refl s⟩

theorem W1_trans {mode : Mode} {s t u : EngineState} (h1 : W1 mode s t)
    (h2 : W1 mode t u) : W1 mode s u :=
  ⟨WB_trans h1.1 h2.1, fun h => SPres_trans (h1.2 h) (h2.2 h)⟩

theorem xorToggleCancel (x : Nat) : x ^^^ 0x18 ^^^ 0x18 = x := by
  rw [Nat.xor_assoc, Nat.xor_self, Nat.xor_zero]

theorem futRun_w1 {rec : SearchFn} (hrec : RecW1 rec) (mode : Mode)
    {b sa ss : Int} {css sd : Nat}
    {bb side : Nat} {sc : Int} {ep : Nat} {npm : Int}
    {sf st nc nm dm : Nat} {ssf : Bool} {buf : List Move} {bsz num : Nat}
    {cond : Prop} [inst : Decidable cond]
    {ssn : Int} {b3 side3 : Nat} {sc3 : Int} {ep3 : Nat} {npm3 : Int}
    {sf3 st3 nc3 nm3 dm3 : Nat} {ss3 : Bool} {buf3 : List Move} {bsz3 num3 : Nat}
    (h : ifP cond
        (fun _ =>
          seqPair (rec (-b) (-sa) (-ss) css sd Mode.internal
              ⟨bb, side ^^^ 0x18, sc, ep, npm, sf, st, nc, nm, dm, ssf, buf, bsz,
               num⟩)
            (fun v s2 => (-v, s2)))
        (fun _ =>
          (ss,
           (⟨bb, side ^^^ 0x18, sc, ep, npm, sf, st, nc, nm, dm, ssf, buf, bsz,
             num⟩ : EngineState))) =
      (ssn, ⟨b3, side3, sc3, ep3, npm3, sf3, st3, nc3, nm3, dm3, ss3, buf3, bsz3,
             num3⟩)) :
    W1 mode (⟨bb, side, sc, ep, npm, sf, st, nc, nm, dm, ssf, buf, bsz,
              num⟩ : EngineState)
      (⟨b3, side3 ^^^ 0x18, sc3, ep3, npm3, sf3, st3, nc3, nm3, dm3, ss3, buf3,
        bsz3, num3⟩ : EngineState) := by
  rw [ifP_eq] at h
  split at h
  · rcases hr : rec (-b) (-sa) (-ss) css sd Mode.internal
        ⟨bb, side ^^^ 0x18, sc, ep, npm, sf, st, nc, nm, dm, ssf, buf, bsz, num⟩
      with ⟨v, s2⟩
    rw [hr, seqPair_eq] at h
    have hw := hrec (-b) (-sa) (-ss) css sd
      ⟨bb, side ^^^ 0x18, sc, ep, npm, sf, st, nc, nm, dm, ssf, buf, bsz, num⟩
    rw [hr] at hw
    injection h with h1 h2
    subst h2
    obtain ⟨⟨hbsz3, hlen3⟩, hsp3⟩ := hw
    obtain ⟨hside3, hsc3, hep3, hnpm3⟩ := hsp3 (by simp)
    simp only [EngineState.currentSide, EngineState.score, EngineState.enPassantSquare,
      EngineState.nonPawnMaterial, EngineState.validMovesBufferSize]
      at hside3 hsc3 hep3 hnpm3 hbsz3
    refine ⟨⟨hbsz3, ?_⟩, fun _ => ⟨?_, hsc3, hep3, hnpm3⟩⟩
    · intro hli
      have := hlen3 (by simpa [lenInv] using hli)
      simpa [lenInv] using this
    · simp only [EngineState.currentSide]
      rw [hside3, xorToggleCancel]
  · injection h with h1 h2
    injection h2 with e1 e2 e3 e4 e5 e6 e7 e8 e9 e10 e11 e12 e13 e14
    subst e1 e2 e3 e4 e5 e6 e7 e8 e9 e10 e11 e12 e13 e14
    rw [xorToggleCancel]
    exact W1_refl _ _

theorem futilityBody_w1 {rec : SearchFn} (hrec : RecW1 rec)
    (a b sa ss : Int) (css : Nat) (mode : Mode) (iD : Nat)
    {ih : Nat → EngineState → Int × EngineState}
    (hih : ∀ sd s, W1 mode s (ih sd s).2) (sd : Nat) (s : EngineState) :
    PairW1 mode s (futilityBody rec a b sa ss css mode iD ih sd s) := by
  obtain ⟨bb, side, sc, ep, npm, sf, st, nc, nm, dm, ssf, buf, bsz, num⟩ := s
  unfold futilityBody
  apply seqPair_elim
  intro ssn s3 hrun
  apply seqInt_elim
  split
  next b3 side3 sc3 ep3 npm3 sf3 st3 nc3 nm3 dm3 ss3 buf3 bsz3 num3 =>
  have hW4 := futRun_w1 hrec mode hrun
  apply ifP_elim
  · intro hgo
    exact W1_trans hW4 (hih _ _)
  · intro hgo
    exact hW4

theorem recordMove_lenInv {s : EngineState} (h : lenInv s) (m : Move) :
    lenInv (recordMove s m) := by
  obtain ⟨b, side, sc, ep, npm, sf, st, nc, nm, dm, ss, buf, bsz, num⟩ := s
  simp only [lenInv, recordMove] at h ⊢
  split
  · simp only [List.length_append, List.length_cons, List.length_nil]
    omega
  · omega

theorem recordMove_w1 (mode : Mode) (s : EngineState) (m : Move) :
    W1 mode s (recordMove s m) := by
  obtain ⟨b, side, sc, ep, npm, sf, st, nc, nm, dm, ss, buf, bsz, num⟩ := s
  exact ⟨⟨rfl, fun h => recordMove_lenInv h m⟩, fun _ => ⟨rfl, rfl, rfl, rfl⟩⟩

theorem commitPlay_wb (sc cv : Int) (css : Nat) (s : EngineState) :
    WB s (commitPlay sc cv css s) := by
  obtain ⟨b, side, scG, ep, npm, sf, st, nc, nm, dm, ss, buf, bsz, num⟩ := s
  exact ⟨rfl, fun h => by simpa [lenInv, commitPlay] using h⟩

theorem futilityLoop_w1 {rec : SearchFn} (hrec : RecW1 rec)
    (a b sa ss : Int) (css : Nat) (mode : Mode) (iD : Nat) :
    ∀ ffuel sd s, PairW1 mode s (futilityLoop rec ffuel a b sa ss css mode iD sd s) := by
  intro ffuel
  induction ffuel with
  | zero => intro sd s; exact W1_refl _ _
  | succ n ihn =>
    intro sd s
    exact futilityBody_w1 hrec a b sa ss css mode iD (fun sd s => ihn sd s) sd s

theorem nmRun_w1 {rec : SearchFn} (hrec : RecW1 rec) (mode : Mode)
    {beta score : Int} {iterDepth : Nat}
    {bb side : Nat} {sc : Int} {ep : Nat} {npm : Int}
    {sf st nc nm dm : Nat} {ssf : Bool} {buf : List Move} {bsz num : Nat}
    {cond : Prop} [inst : Decidable cond]
    {v : Int} {b2 side2 : Nat} {sc2 : Int} {ep2 : Nat} {npm2 : Int}
    {sf2 st2 nc2 nm2 dm2 : Nat} {ss2 : Bool} {buf2 : List Move} {bsz2 num2 : Nat}
    (h : ifP cond
        (fun _ =>
          rec (-beta) (1 - beta) (-score) 0x80 (iterDepth - 3) Mode.internal
            ⟨bb, side ^^^ 0x18, sc, ep, npm, sf, st, nc, nm, dm, ssf, buf, bsz, num⟩)
        (fun _ =>
          ((8000 : Int),
           (⟨bb, side ^^^ 0x18, sc, ep, npm, sf, st, nc, nm, dm, ssf, buf, bsz,
             num⟩ : EngineState))) =
      (v, ⟨b2, side2, sc2, ep2, npm2, sf2, st2, nc2, nm2, dm2, ss2, buf2, bsz2,
           num2⟩)) :
    W1 mode (⟨bb, side, sc, ep, npm, sf, st, nc, nm, dm, ssf, buf, bsz,
              num⟩ : EngineState)
      (⟨b2, side2 ^^^ 0x18, sc2, ep2, npm2, sf2, st2, nc2, nm2, dm2, ss2, buf2,
        bsz2, num2⟩ : EngineState) := by
  rw [ifP_eq] at h
  split at h
  · have hw := hrec (-beta) (1 - beta) (-score) 0x80 (iterDepth - 3)
      ⟨bb, side ^^^ 0x18, sc, ep, npm, sf, st, nc, nm, dm, ssf, buf, bsz, num⟩
    rw [h] at hw
    obtain ⟨⟨hbsz3, hlen3⟩, hsp3⟩ := hw
    obtain ⟨hside3, hsc3, hep3, hnpm3⟩ := hsp3 (by simp)
    simp only [EngineState.currentSide, EngineState.score, EngineState.enPassantSquare,
      EngineState.nonPawnMaterial, EngineState.validMovesBufferSize]
      at hside3 hsc3 hep3 hnpm3 hbsz3
    refine ⟨⟨hbsz3, ?_⟩, fun _ => ⟨?_, hsc3, hep3, hnpm3⟩⟩
    · intro hli
      have := hlen3 (by simpa [lenInv] using hli)
      simpa [lenInv] using this
    · simp only [EngineState.currentSide]
      rw [hside3, xorToggleCancel]
  · injection h with h1 h2
    injection h2 with e1 e2 e3 e4 e5 e6 e7 e8 e9 e10 e11 e12 e13 e14
    subst e1 e2 e3 e4 e5 e6 e7 e8 e9 e10 e11 e12 e13 e14
    rw [xorToggleCancel]
    exact W1_refl _ _

theorem nullMoveProbe_w1 {rec : SearchFn} (hrec : RecW1 rec)
    (beta score : Int) (iterDepth : Nat) (mode : Mode) (s : EngineState) :
    W1 mode s (nullMoveProbe rec beta score iterDepth s).2 := by
  obtain ⟨bb, side, sc, ep, npm, sf, st, nc, nm, dm, ssf, buf, bsz, num⟩ := s
  show PairW1 mode _ _
  unfold nullMoveProbe
  apply seqPair_elim
  intro v s2 hrun
  apply seqInt_elim
  split
  next b2 side2 sc2 ep2 npm2 sf2 st2 nc2 nm2 dm2 ss2 buf2 bsz2 num2 =>
  exact nmRun_w1 hrec mode hrun

theorem afterStep_w1 {mode : Mode} {s0 : EngineState}
    (sqF sqT css crs pt : Nat) (sv svI : Int) (sp cp : Nat) (ss : Int)
    (iD : Nat) (iS : Int) (iF iT rm : Nat) {s : EngineState} (h : W1 mode s0 s) :
    RayResW1 mode s0
      (afterStep sqF sqT css crs pt sv svI sp cp ss iD iS iF iT rm s) := by
  unfold afterStep
  apply seqTriple_elim
  intro iS2 iF2 iT2 htr
  apply ifP_elim
  · intro hreplay
    exact h
  · intro hreplay
    apply seqPair_elim
    intro blocked crs2 hbl
    apply ifP_elim
    · intro hb
      apply seqNat_elim
      apply ifP_elim
      · intro hcp
        exact h
      · intro hcp
        exact h
    · intro hb
      apply ifP_elim
      · intro hcp
        exact h
      · intro hcp
        exact h

theorem W1_board (mode : Mode) (b b2 : Nat) (side : Nat) (sc : Int) (ep : Nat)
    (npm : Int) (sf st nc nm dm : Nat) (ss : Bool) (buf : List Move) (bsz num : Nat) :
    W1 mode (⟨b, side, sc, ep, npm, sf, st, nc, nm, dm, ss, buf, bsz, num⟩ : EngineState)
      (⟨b2, side, sc, ep, npm, sf, st, nc, nm, dm, ss, buf, bsz, num⟩ : EngineState) :=
  ⟨⟨rfl, fun h => h⟩, fun _ => ⟨rfl, rfl, rfl, rfl⟩⟩

theorem RecW1.ofEq {rec : SearchFn} (hrec : RecW1 rec) {a b : Int} {sc : Int}
    {ep d : Nat} {s : EngineState} {r : Int × EngineState}
    (h : rec a b sc ep d Mode.internal s = r) : W1 Mode.internal s r.2 :=
  h ▸ hrec a b sc ep d s

theorem futilityLoop_w1R {rec : SearchFn} (hrec : RecW1 rec)
    {a b sa ss : Int} {css : Nat} {mode : Mode} {iD f sd : Nat} {s : EngineState}
    {r : Int × EngineState}
    (h : futilityLoop rec f a b sa ss css mode iD sd s = r) : W1 mode s r.2 :=
  h ▸ futilityLoop_w1 hrec a b sa ss css mode iD f sd s

theorem commitPlay_w1hyp {mode : Mode} (hm : mode = Mode.playMove)
    {s t : EngineState} (h : W1 mode s t) (sc cv : Int) (css : Nat) :
    W1 mode s (commitPlay sc cv css t) := by
  refine ⟨WB_trans h.1 (commitPlay_wb sc cv css t), fun hne => absurd hm hne⟩

theorem rayStep_w1 {rec : SearchFn} (hrec : RecW1 rec)
    (alpha beta score : Int) (ep : Nat) (mode : Mode) (nms : Int)
    (sqF sp pt : Nat) (sv svI : Int) (sqT css crs : Nat) (it : Iter) :
    RayResW1 mode it.s
      (rayStep rec alpha beta score ep mode nms sqF sp pt sv svI sqT css crs it) := by
  unfold rayStep
  split
  next itD0 itS0 itF0 itT0 itR0 s0 =>
  show RayResW1 mode s0 _
  apply forceState_elim
  apply seqNat_elim
  apply seqInt_elim
  apply seqNat_elim
  apply seqNat_elim
  apply seqNat_elim
  split
  next bb side scG epG npm sfG stG ncG nmG dmG ssG bufG bszG numG =>
  apply seqNat_elim
  apply ifP_elim
  · intro h88
    exact W1_refl _ _
  · intro h88
    apply seqInt_elim
    apply seqNat_elim
    apply seqNat_elim
    apply ifP_elim
    · intro hown
      exact W1_refl _ _
    · intro hown
      apply seqInt_elim
      apply seqPair_elim
      intro itScore2 itDepth2 hkc
      apply ifP_elim
      · intro hcut
        exact W1_refl _ _
      · intro hcut
        apply seqInt_elim
        apply ifP_elim
        · intro happly
          apply seqInt_elim
          apply seqNat_elim
          apply seqPair_elim
          intro b1 stepScore1 hcst
          apply seqNat_elim
          apply seqInt_elim
          apply seqTriple_elim
          intro b2 stepScore2 cpv2 hpw
          apply seqNat_elim
          apply seqInt_elim
          apply seqInt_elim
          apply seqInt_elim
          apply seqInt_elim
          apply seqNat_elim
          apply seqPair_elim
          intro ss2x s2 heqF
          have hwF := futilityLoop_w1R hrec heqF
          apply seqInt_elim
          apply forceState_elim
          split
          next bF sideF scF epF npmF sfF stF ncF nmF dmF ssF bufF bszF numF =>
          have hw1 : W1 mode
              (⟨bb, side, scG, epG, npm, sfG, stG, ncG, nmG, dmG, ssG, bufG, bszG,
                numG⟩ : EngineState)
              (⟨bF, sideF, scF, epF, npmF, sfF, stF, ncF, nmF, dmF, ssF, bufF,
                bszF, numF⟩ : EngineState) :=
            W1_trans (W1_board mode bb b2 side scG epG npm sfG stG ncG nmG dmG ssG
              bufG bszG numG) hwF
          apply ifP_elim
          · intro hcommit
            exact commitPlay_w1hyp hcommit.1 hw1 _ _ _
          · intro hcommit
            apply seqNat_elim
            apply ifP_elim
            · intro hbest
              exact W1_trans hw1
                (W1_board mode bF _ sideF scF epF npmF sfF stF ncF nmF dmF ssF bufF
                  bszF numF)
            · intro hbest
              apply afterStep_w1
              split
              · exact W1_trans (W1_trans hw1
                  (W1_board mode bF _ sideF scF epF npmF sfF stF ncF nmF dmF ssF bufF
                    bszF numF)) (recordMove_w1 mode _ _)
              · exact W1_trans hw1
                  (W1_board mode bF _ sideF scF epF npmF sfF stF ncF nmF dmF ssF bufF
                    bszF numF)
        · intro happly
          apply afterStep_w1
          exact W1_refl _ _

theorem ScanResW1_compose {mode : Mode} {s0 s1 : EngineState} (h : W1 mode s0 s1) :
    ∀ {r : ScanRes}, ScanResW1 mode s1 r → ScanResW1 mode s0 r := by
  intro r hr
  cases r with
  | ret v s => exact W1_trans h hr
  | cutoff it => exact W1_trans h hr
  | next it => exact W1_trans h hr

theorem W1_mk2 (mode : Mode) (b b2 side : Nat) (sc : Int) (ep : Nat) (npm : Int)
    (sf sf2 st st2 nc nc2 nm dm : Nat) (ss : Bool) (buf : List Move) (bsz num : Nat) :
    W1 mode (⟨b, side, sc, ep, npm, sf, st, nc, nm, dm, ss, buf, bsz, num⟩ : EngineState)
      (⟨b2, side, sc, ep, npm, sf2, st2, nc2, nm, dm, ss, buf, bsz, num⟩ : EngineState) :=
  ⟨⟨rfl, fun h => h⟩, fun _ => ⟨rfl, rfl, rfl, rfl⟩⟩

theorem W1_squares (mode : Mode) (s : EngineState) (a b : Nat) :
    W1 mode s { s with squareFrom := a, squareTo := b } := by
  obtain ⟨bb, side, sc, ep, npm, sf, st, nc, nm, dm, ss, buf, bsz, num⟩ := s
  exact ⟨⟨rfl, fun h => h⟩, fun _ => ⟨rfl, rfl, rfl, rfl⟩⟩

theorem nullMoveProbe_w1R {rec : SearchFn} (hrec : RecW1 rec) {beta score : Int}
    {iterDepth : Nat} (mode : Mode) {s : EngineState} {r : Int × EngineState}
    (h : nullMoveProbe rec beta score iterDepth s = r) : W1 mode s r.2 :=
  h ▸ nullMoveProbe_w1 hrec beta score iterDepth mode s

theorem rayBody_w1 {rec : SearchFn} (hrec : RecW1 rec)
    (alpha beta score : Int) (ep : Nat) (mode : Mode) (nms : Int)
    (sqF sp pt : Nat) (sv svI : Int)
    {ih : Nat → Nat → Nat → Iter → ScanRes}
    (hih : ∀ a b c it, ScanResW1 mode it.s (ih a b c it))
    (sqT css crs : Nat) (it : Iter) :
    ScanResW1 mode it.s
      (rayBody rec alpha beta score ep mode nms sqF sp pt sv svI ih sqT css crs
        it) := by
  unfold rayBody
  have hstep := rayStep_w1 hrec alpha beta score ep mode nms sqF sp pt sv svI sqT css
    crs it
  apply rayResCase_elim
  · intro v s h
    rw [h] at hstep
    exact hstep
  · intro it2 h
    rw [h] at hstep
    exact hstep
  · intro it2 h
    rw [h] at hstep
    exact hstep
  · intro it2 h
    rw [h] at hstep
    exact ScanResW1_compose hstep (hih _ _ _ it2)
  · intro a b c it2 h
    rw [h] at hstep
    exact ScanResW1_compose hstep (hih a b c it2)

theorem rayLoop_w1 {rec : SearchFn} (hrec : RecW1 rec) (rfuel : Nat)
    (alpha beta score : Int) (ep : Nat) (mode : Mode) (nms : Int)
    (sqF sp pt : Nat) (sv svI : Int) :
    ∀ sqT css crs it, ScanResW1 mode it.s
      (rayLoop rec rfuel alpha beta score ep mode nms sqF sp pt sv svI sqT css crs
        it) := by
  induction rfuel with
  | zero =>
    intro sqT css crs it
    exact W1_refl _ _
  | succ n IHn =>
    intro sqT css crs it
    exact rayBody_w1 hrec alpha beta score ep mode nms sqF sp pt sv svI IHn sqT css
      crs it

theorem rayLoop_w1R {rec : SearchFn} (hrec : RecW1 rec) {rfuel : Nat}
    {alpha beta score : Int} {ep : Nat} {mode : Mode} {nms : Int}
    {sqF sp pt : Nat} {sv svI : Int} {sqT css crs : Nat} {it : Iter} {r : ScanRes}
    (h : rayLoop rec rfuel alpha beta score ep mode nms sqF sp pt sv svI sqT css crs
      it = r) : ScanResW1 mode it.s r :=
  h ▸ rayLoop_w1 hrec rfuel alpha beta score ep mode nms sqF sp pt sv svI sqT css
    crs it

theorem vectorBody_w1 {rec : SearchFn} (hrec : RecW1 rec)
    (alpha beta score : Int) (ep : Nat) (mode : Mode) (nms : Int)
    (sqF sp pt : Nat)
    {ih : Int → Int → Iter → ScanRes}
    (hih : ∀ a b it, ScanResW1 mode it.s (ih a b it))
    (sv svI : Int) (it : Iter) :
    ScanResW1 mode it.s
      (vectorBody rec alpha beta score ep mode nms sqF sp pt ih sv svI it) := by
  unfold vectorBody
  apply seqPair_elim
  intro sv2 svI2 hp
  apply seqInt_elim
  apply seqInt_elim
  apply ifP_elim
  · intro h0
    exact W1_refl _ _
  · intro h0
    apply scanResCase_elim
    · intro v s h
      exact rayLoop_w1R hrec h
    · intro it2 h
      exact rayLoop_w1R hrec h
    · intro it2 h
      exact ScanResW1_compose (rayLoop_w1R hrec h) (hih sv2 svI2 it2)

theorem vectorLoop_w1 {rec : SearchFn} (hrec : RecW1 rec) (vfuel : Nat)
    (alpha beta score : Int) (ep : Nat) (mode : Mode) (nms : Int)
    (sqF sp pt : Nat) :
    ∀ sv svI it, ScanResW1 mode it.s
      (vectorLoop rec vfuel alpha beta score ep mode nms sqF sp pt sv svI it) := by
  induction vfuel with
  | zero =>
    intro sv svI it
    exact W1_refl _ _
  | succ n IHn =>
    intro sv svI it
    exact vectorBody_w1 hrec alpha beta score ep mode nms sqF sp pt IHn sv svI it

theorem scanSquare_w1 {rec : SearchFn} (hrec : RecW1 rec)
    (alpha beta score : Int) (ep : Nat) (mode : Mode) (nms : Int)
    (sqF : Nat) (it : Iter) :
    ScanResW1 mode it.s (scanSquare rec alpha beta score ep mode nms sqF it) := by
  unfold scanSquare
  split
  next itD itS itF itT itR s =>
  show ScanResW1 mode s _
  split
  next bb side sc epG npm sf st nc nm dm ss buf bsz num =>
  apply seqNat_elim
  apply ifP_elim
  · intro hside
    apply seqNat_elim
    exact vectorLoop_w1 hrec 40 alpha beta score ep mode nms sqF _ _ _ _ _
  · intro hside
    exact W1_refl _ _

theorem scanSquare_w1R {rec : SearchFn} (hrec : RecW1 rec)
    {alpha beta score : Int} {ep : Nat} {mode : Mode} {nms : Int}
    {sqF : Nat} {it : Iter} {r : ScanRes}
    (h : scanSquare rec alpha beta score ep mode nms sqF it = r) :
    ScanResW1 mode it.s r :=
  h ▸ scanSquare_w1 hrec alpha beta score ep mode nms sqF it

theorem scanBody_w1 {rec : SearchFn} (hrec : RecW1 rec)
    (alpha beta score : Int) (ep : Nat) (mode : Mode) (nms : Int)
    {ih : Nat → Nat → Iter → ScanRes}
    (hih : ∀ a b it, ScanResW1 mode it.s (ih a b it))
    (sqF sqStart : Nat) (it : Iter) :
    ScanResW1 mode it.s
      (scanBody rec alpha beta score ep mode nms ih sqF sqStart it) := by
  unfold scanBody
  apply scanResCase_elim
  · intro v s h
    exact scanSquare_w1R hrec h
  · intro it2 h
    exact scanSquare_w1R hrec h
  · intro it2 h
    apply seqNat_elim
    apply ifP_elim
    · intro he
      exact scanSquare_w1R hrec h
    · intro he
      exact ScanResW1_compose (scanSquare_w1R hrec h) (hih _ _ it2)

theorem scanLoop_w1 {rec : SearchFn} (hrec : RecW1 rec) (sfuel : Nat)
    (alpha beta score : Int) (ep : Nat) (mode : Mode) (nms : Int) :
    ∀ sqF sqStart it, ScanResW1 mode it.s
      (scanLoop rec sfuel alpha beta score ep mode nms sqF sqStart it) := by
  induction sfuel with
  | zero =>
    intro sqF sqStart it
    exact W1_refl _ _
  | succ n IHn =>
    intro sqF sqStart it
    exact scanBody_w1 hrec alpha beta score ep mode nms IHn sqF sqStart it

theorem scanLoop_w1R {rec : SearchFn} (hrec : RecW1 rec) {sfuel : Nat}
    {alpha beta score : Int} {ep : Nat} {mode : Mode} {nms : Int}
    {sqF sqStart : Nat} {it : Iter} {r : ScanRes}
    (h : scanLoop rec sfuel alpha beta score ep mode nms sqF sqStart it = r) :
    ScanResW1 mode it.s r :=
  h ▸ scanLoop_w1 hrec sfuel alpha beta score ep mode nms sqF sqStart it

theorem deepCont_w1 (mode : Mode) {depth iterDepth iterDepthNew : Nat}
    {m2 : Mode} {iF iT : Nat}
    {bG sideG : Nat} {scG : Int} {epG : Nat} {npmG : Int}
    {sfG stG ncG nmG dmG : Nat} {ssG : Bool} {bufG : List Move} {bszG numG : Nat}
    {cont : Bool} {iterDepth2 : Nat} {s2 : EngineState}
    (h : (if iterDepth < depth then
            ((true, iterDepthNew,
              ⟨bG, sideG, scG, epG, npmG, sfG, stG, ncG, nmG, dmG, ssG, bufG,
               bszG, numG⟩) : Bool × Nat × EngineState)
          else if iterDepthNew < 3 then
            (true, iterDepthNew,
             ⟨bG, sideG, scG, epG, npmG, sfG, stG, ncG, nmG, dmG, ssG, bufG, bszG,
              numG⟩)
          else if m2 ≠ Mode.internal ∧ sfG = 0x80 then
            if ncG < nmG ∧ iterDepthNew ≤ dmG then
              (true, iterDepthNew,
               ⟨bG, sideG, scG, epG, npmG, sfG, stG, ncG, nmG, dmG, ssG, bufG, bszG,
                numG⟩)
            else
              (true, 3,
               ⟨bG, sideG, scG, epG, npmG, iF, iT &&& 0x77,
                ncG, nmG, dmG, ssG, bufG, bszG, numG⟩)
          else
            (false, iterDepthNew,
             ⟨bG, sideG, scG, epG, npmG, sfG, stG, ncG, nmG, dmG, ssG, bufG, bszG,
              numG⟩)) = (cont, iterDepth2, s2)) :
    W1 mode (⟨bG, sideG, scG, epG, npmG, sfG, stG, ncG, nmG, dmG, ssG, bufG, bszG,
              numG⟩ : EngineState) s2 := by
  split at h
  · cases h
    exact W1_refl _ _
  · split at h
    · cases h
      exact W1_refl _ _
    · split at h
      · split at h
        · cases h
          exact W1_refl _ _
        · cases h
          exact W1_mk2 mode bG bG sideG scG epG npmG sfG iF stG (iT &&& 0x77) ncG
            ncG nmG dmG ssG bufG bszG numG
      · cases h
        exact W1_refl _ _

theorem deepeningBody_w1 {rec : SearchFn} (hrec : RecW1 rec)
    (alpha beta score : Int) (ep depth : Nat) (mode : Mode)
    {ih : Nat → Int → Nat → Nat → EngineState → Int × EngineState}
    (hih : ∀ a b c d s, W1 mode s (ih a b c d s).2)
    (iD : Nat) (iS : Int) (iF iT : Nat) (s : EngineState) :
    PairW1 mode s
      (deepeningBody rec alpha beta score ep depth mode ih iD iS iF iT s) := by
  unfold deepeningBody
  apply seqNat_elim
  apply seqInt_elim
  apply seqNat_elim
  apply seqNat_elim
  apply forceState_elim
  apply seqNat_elim
  split
  next bG sideG scG epG npmG sfG stG ncG nmG dmG ssG bufG bszG numG =>
  apply seqTriple_elim
  intro cont iterDepth2 s2 htr
  have hs2 : W1 mode _ s2 := deepCont_w1 mode htr
  apply ifP_elim
  · intro hcont
    apply ifP_elim
    · intro hss
      exact hs2
    · intro hss
      apply seqPair_elim
      intro nms0 s3 hpr
      have hs3 : W1 mode s2 s3 := nullMoveProbe_w1R hrec mode hpr
      apply seqInt_elim
      apply seqInt_elim
      split
      next b3 side3 sc3 ep3 npm3 sf3 st3 nc3 nm3 dm3 ss3 buf3 bsz3 num3 =>
      have hbump : W1 mode
          (⟨bG, sideG, scG, epG, npmG, sfG, stG, ncG, nmG, dmG, ssG, bufG, bszG,
            numG⟩ : EngineState)
          (⟨b3, side3, sc3, ep3, npm3, sf3, st3, (nc3 + 1) % 4294967296, nm3, dm3,
            ss3, buf3, bsz3, num3⟩ : EngineState) :=
        W1_trans (W1_trans hs2 hs3)
          (W1_mk2 mode b3 b3 side3 sc3 ep3 npm3 sf3 sf3 st3 st3 nc3
            ((nc3 + 1) % 4294967296) nm3 dm3 ss3 buf3 bsz3 num3)
      apply scanResCase_elim
      · intro v sr h
        exact W1_trans hbump (scanLoop_w1R hrec h)
      · intro it2 h
        split
        next itD2 itS2 itF2 itT2 itR2 itState =>
        exact W1_trans (W1_trans hbump (scanLoop_w1R hrec h)) (hih _ _ _ _ itState)
      · intro it2 h
        split
        next itD2 itS2 itF2 itT2 itR2 itState =>
        exact W1_trans (W1_trans hbump (scanLoop_w1R hrec h)) (hih _ _ _ _ itState)
  · intro hcont
    exact hs2

theorem deepeningLoop_w1 {rec : SearchFn} (hrec : RecW1 rec) (idFuel : Nat)
    (alpha beta score : Int) (ep depth : Nat) (mode : Mode) :
    ∀ iD iS iF iT s, PairW1 mode s
      (deepeningLoop rec idFuel alpha beta score ep depth mode iD iS iF iT s) := by
  induction idFuel with
  | zero =>
    intro iD iS iF iT s
    exact W1_refl _ _
  | succ n IHn =>
    intro iD iS iF iT s
    exact deepeningBody_w1 hrec alpha beta score ep depth mode IHn iD iS iF iT s

theorem searchBody_w1 {rec : SearchFn} (hrec : RecW1 rec) (idFuel : Nat)
    (alpha beta score : Int) (ep depth : Nat) (mode : Mode) (s : EngineState) :
    PairW1 mode s (searchBody rec idFuel alpha beta score ep depth mode s) := by
  unfold searchBody
  apply seqInt_elim
  apply seqInt_elim
  exact deepeningLoop_w1 hrec idFuel _ _ score ep depth mode 0 0 0 0 s

theorem mcumaxSearch_w1 (fuel : Nat) :
    ∀ (alpha beta score : Int) (ep depth : Nat) (mode : Mode) (s : EngineState),
      PairW1 mode s (mcumaxSearch fuel alpha beta score ep depth mode s) := by
  induction fuel with
  | zero =>
    intro alpha beta score ep depth mode s
    exact W1_refl _ _
  | succ n IHn =>
    intro alpha beta score ep depth mode s
    have hrec : RecW1 (mcumaxSearch n) :=
      fun a b sc ep2 d s2 => IHn a b sc ep2 d Mode.internal s2
    exact searchBody_w1 hrec (n + 1) alpha beta score ep depth mode s

theorem EqB_mk (b side : Nat) (sc : Int) (ep : Nat) (npm : Int)
    (sf st nc nm dm : Nat) (ss : Bool) (bufS : List Move) (bszS : Nat)
    (bufT : List Move) (bszT : Nat) (num : Nat) :
    EqB (⟨b, side, sc, ep, npm, sf, st, nc, nm, dm, ss, bufS, bszS, num⟩ : EngineState)
      (⟨b, side, sc, ep, npm, sf, st, nc, nm, dm, ss, bufT, bszT, num⟩ : EngineState) :=
  ⟨rfl, rfl, rfl, rfl, rfl, rfl, rfl, rfl, rfl, rfl, rfl, rfl⟩

theorem EqB_inv {bb side : Nat} {sc : Int} {ep : Nat} {npm : Int}
    {sf st nc nm dm : Nat} {ssf : Bool} {num : Nat}
    {bb2 side2 : Nat} {sc2 : Int} {ep2 : Nat} {npm2 : Int}
    {sf2 st2 nc2 nm2 dm2 : Nat} {ssf2 : Bool} {num2 : Nat}
    {bufL : List Move} {bszL : Nat} {bufR : List Move} {bszR : Nat}
    (h : EqB
      (⟨bb, side, sc, ep, npm, sf, st, nc, nm, dm, ssf, bufL, bszL, num⟩ : EngineState)
      (⟨bb2, side2, sc2, ep2, npm2, sf2, st2, nc2, nm2, dm2, ssf2, bufR, bszR,
        num2⟩ : EngineState)) :
    bb = bb2 ∧ side = side2 ∧ sc = sc2 ∧ ep = ep2 ∧ npm = npm2 ∧ sf = sf2 ∧
    st = st2 ∧ nc = nc2 ∧ nm = nm2 ∧ dm = dm2 ∧ ssf = ssf2 ∧ num = num2 := h

theorem IterR_mk (iD : Nat) (iS : Int) (iF iT iR : Nat) {s t : EngineState}
    (h : EqB s t) :
    IterR ⟨iD, iS, iF, iT, iR, s⟩ ⟨iD, iS, iF, iT, iR, t⟩ :=
  ⟨rfl, rfl, rfl, rfl, rfl, h⟩

theorem seqNat_elim2 {α β : Type} {P : α → β → Prop} (n : Nat)
    (k : Nat → α) (l : Nat → β) (h : P (k n) (l n)) :
    P (seqNat n k) (seqNat n l) := by
  rw [seqNat_eq, seqNat_eq]; exact h

theorem seqInt_elim2 {α β : Type} {P : α → β → Prop} (i : Int)
    (k : Int → α) (l : Int → β) (h : P (k i) (l i)) :
    P (seqInt i k) (seqInt i l) := by
  rw [seqInt_eq, seqInt_eq]; exact h

theorem forceState_elim2 {α β : Type} {P : α → β → Prop} (s t : EngineState)
    (k : EngineState → α) (l : EngineState → β) (h : P (k s) (l t)) :
    P (forceState s k) (forceState t l) := by
  rw [forceState_eq, forceState_eq]; exact h

theorem ifP_elim2 {γ δ : Type} {P : γ → δ → Prop} (c : Prop) [inst : Decidable c]
    (t e : Unit → γ) (t2 e2 : Unit → δ)
    (h1 : c → P (t ()) (t2 ())) (h2 : ¬c → P (e ()) (e2 ())) :
    P (ifP c t e) (ifP c t2 e2) := by
  unfold ifP
  split
  next h => exact h1 h
  next h => exact h2 h

theorem seqPair_elim2 {α β γ α2 β2 γ2 : Type} {P : γ → γ2 → Prop}
    (p : α × β) (q : α2 × β2) (k : α → β → γ) (l : α2 → β2 → γ2)
    (h : ∀ a b a2 b2, p = (a, b) → q = (a2, b2) → P (k a b) (l a2 b2)) :
    P (seqPair p k) (seqPair q l) := by
  obtain ⟨a, b⟩ := p
  obtain ⟨a2, b2⟩ := q
  exact h a b a2 b2 rfl rfl

theorem seqPairS_elim2 {α β γ δ : Type} {P : γ → δ → Prop}
    (p : α × β) (k : α → β → γ) (l : α → β → δ)
    (h : ∀ a b, p = (a, b) → P (k a b) (l a b)) :
    P (seqPair p k) (seqPair p l) := by
  obtain ⟨a, b⟩ := p
  exact h a b rfl

theorem seqTriple_elim2 {α β γ δ α2 β2 γ2 δ2 : Type} {P : δ → δ2 → Prop}
    (p : α × β × γ) (q : α2 × β2 × γ2) (k : α → β → γ → δ) (l : α2 → β2 → γ2 → δ2)
    (h : ∀ a b c a2 b2 c2, p = (a, b, c) → q = (a2, b2, c2) →
      P (k a b c) (l a2 b2 c2)) :
    P (seqTriple p k) (seqTriple q l) := by
  obtain ⟨a, b, c⟩ := p
  obtain ⟨a2, b2, c2⟩ := q
  exact h a b c a2 b2 c2 rfl rfl

theorem seqTripleS_elim2 {α β γ δ δ2 : Type} {P : δ → δ2 → Prop}
    (p : α × β × γ) (k : α → β → γ → δ) (l : α → β → γ → δ2)
    (h : ∀ a b c, p = (a, b, c) → P (k a b c) (l a b c)) :
    P (seqTriple p k) (seqTriple p l) := by
  obtain ⟨a, b, c⟩ := p
  exact h a b c rfl

theorem rayResCase_elim2 {γ δ : Type} {P : γ → δ → Prop} {r r2 : RayRes}
    (hrel : RayR r r2)
    (kr : Int → EngineState → γ) (kc kb ka : Iter → γ)
    (ks : Nat → Nat → Nat → Iter → γ)
    (kr2 : Int → EngineState → δ) (kc2 kb2 ka2 : Iter → δ)
    (ks2 : Nat → Nat → Nat → Iter → δ)
    (hret : ∀ v s v2 s2, v = v2 → EqB s s2 → P (kr v s) (kr2 v2 s2))
    (hcut : ∀ i j, IterR i j → P (kc i) (kc2 j))
    (hbrk : ∀ i j, IterR i j → P (kb i) (kb2 j))
    (hagn : ∀ i j, IterR i j → P (ka i) (ka2 j))
    (hstp : ∀ a b c i a2 b2 c2 j, a = a2 → b = b2 → c = c2 → IterR i j →
      P (ks a b c i) (ks2 a2 b2 c2 j)) :
    P (rayResCase r kr kc kb ka ks) (rayResCase r2 kr2 kc2 kb2 ka2 ks2) := by
  cases r with
  | ret v s =>
    cases r2 with
    | ret v2 s2 => exact hret v s v2 s2 hrel.1 hrel.2
    | cutoff j => exact hrel.elim
    | brk j => exact hrel.elim
    | again j => exact hrel.elim
    | step a2 b2 c2 j => exact hrel.elim
  | cutoff i =>
    cases r2 with
    | ret v2 s2 => exact hrel.elim
    | cutoff j => exact hcut i j hrel
    | brk j => exact hrel.elim
    | again j => exact hrel.elim
    | step a2 b2 c2 j => exact hrel.elim
  | brk i =>
    cases r2 with
    | ret v2 s2 => exact hrel.elim
    | cutoff j => exact hrel.elim
    | brk j => exact hbrk i j hrel
    | again j => exact hrel.elim
    | step a2 b2 c2 j => exact hrel.elim
  | again i =>
    cases r2 with
    | ret v2 s2 => exact hrel.elim
    | cutoff j => exact hrel.elim
    | brk j => exact hrel.elim
    | again j => exact hagn i j hrel
    | step a2 b2 c2 j => exact hrel.elim
  | step a b c i =>
    cases r2 with
    | ret v2 s2 => exact hrel.elim
    | cutoff j => exact hrel.elim
    | brk j => exact hrel.elim
    | again j => exact hrel.elim
    | step a2 b2 c2 j =>
      exact hstp a b c i a2 b2 c2 j hrel.1 hrel.2.1 hrel.2.2.1 hrel.2.2.2

theorem scanResCase_elim2 {γ δ : Type} {P : γ → δ → Prop} {r r2 : ScanRes}
    (hrel : ScanR r r2)
    (kr : Int → EngineState → γ) (kc kn : Iter → γ)
    (kr2 : Int → EngineState → δ) (kc2 kn2 : Iter → δ)
    (hret : ∀ v s v2 s2, v = v2 → EqB s s2 → P (kr v s) (kr2 v2 s2))
    (hcut : ∀ i j, IterR i j → P (kc i) (kc2 j))
    (hnxt : ∀ i j, IterR i j → P (kn i) (kn2 j)) :
    P (scanResCase r kr kc kn) (scanResCase r2 kr2 kc2 kn2) := by
  cases r with
  | ret v s =>
    cases r2 with
    | ret v2 s2 => exact hret v s v2 s2 hrel.1 hrel.2
    | cutoff j => exact hrel.elim
    | next j => exact hrel.elim
  | cutoff i =>
    cases r2 with
    | ret v2 s2 => exact hrel.elim
    | cutoff j => exact hcut i j hrel
    | next j => exact hrel.elim
  | next i =>
    cases r2 with
    | ret v2 s2 => exact hrel.elim
    | cutoff j => exact hrel.elim
    | next j => exact hnxt i j hrel

theorem recordMove_r2 {s t : EngineState} (h : EqB s t) (m : Move) :
    EqB (recordMove s m) (recordMove t m) := by
  obtain ⟨bb, side, sc, ep, npm, sf, st, nc, nm, dm, ssf, bufL, bszL, num⟩ := s
  obtain ⟨bb2, side2, sc2, ep2, npm2, sf2, st2, nc2, nm2, dm2, ssf2, bufR, bszR,
    num2⟩ := t
  obtain ⟨e1, e2, e3, e4, e5, e6, e7, e8, e9, e10, e11, e12⟩ := EqB_inv h
  subst e1 e2 e3 e4 e5 e6 e7 e8 e9 e10 e11 e12
  unfold recordMove
  exact ⟨rfl, rfl, rfl, rfl, rfl, rfl, rfl, rfl, rfl, rfl, rfl, rfl⟩

theorem commitPlay_r2 (sc cv : Int) (css : Nat) {s t : EngineState} (h : EqB s t) :
    EqB (commitPlay sc cv css s) (commitPlay sc cv css t) := by
  obtain ⟨bb, side, scr, ep, npm, sf, st, nc, nm, dm, ssf, bufL, bszL, num⟩ := s
  obtain ⟨bb2, side2, scr2, ep2, npm2, sf2, st2, nc2, nm2, dm2, ssf2, bufR, bszR,
    num2⟩ := t
  obtain ⟨e1, e2, e3, e4, e5, e6, e7, e8, e9, e10, e11, e12⟩ := EqB_inv h
  subst e1 e2 e3 e4 e5 e6 e7 e8 e9 e10 e11 e12
  unfold commitPlay
  exact ⟨rfl, rfl, rfl, rfl, rfl, rfl, rfl, rfl, rfl, rfl, rfl, rfl⟩

theorem futRun_r2 {rec : SearchFn} (hrec : RecR rec)
    {b sa ss : Int} {css sd : Nat}
    {bb side : Nat} {sc : Int} {ep : Nat} {npm : Int}
    {sf st nc nm dm : Nat} {ssf : Bool} {num : Nat}
    {bufL : List Move} {bszL : Nat} {bufR : List Move} {bszR : Nat}
    {cond : Prop} [inst : Decidable cond]
    {ssnL ssnR : Int} {s3L s3R : EngineState}
    (hL : ifP cond
        (fun _ =>
          seqPair (rec (-b) (-sa) (-ss) css sd Mode.internal
              ⟨bb, side ^^^ 0x18, sc, ep, npm, sf, st, nc, nm, dm, ssf, bufL, bszL,
               num⟩)
            (fun v s2 => (-v, s2)))
        (fun _ =>
          (ss,
           (⟨bb, side ^^^ 0x18, sc, ep, npm, sf, st, nc, nm, dm, ssf, bufL, bszL,
             num⟩ : EngineState))) = (ssnL, s3L))
    (hR : ifP cond
        (fun _ =>
          seqPair (rec (-b) (-sa) (-ss) css sd Mode.internal
              ⟨bb, side ^^^ 0x18, sc, ep, npm, sf, st, nc, nm, dm, ssf, bufR, bszR,
               num⟩)
            (fun v s2 => (-v, s2)))
        (fun _ =>
          (ss,
           (⟨bb, side ^^^ 0x18, sc, ep, npm, sf, st, nc, nm, dm, ssf, bufR, bszR,
             num⟩ : EngineState))) = (ssnR, s3R)) :
    ssnL = ssnR ∧ EqB s3L s3R := by
  rw [ifP_eq] at hL hR
  split at hL
  next hc =>
    rw [if_pos hc] at hR
    rcases hrL : rec (-b) (-sa) (-ss) css sd Mode.internal
        ⟨bb, side ^^^ 0x18, sc, ep, npm, sf, st, nc, nm, dm, ssf, bufL, bszL, num⟩
      with ⟨vL, s2L⟩
    rcases hrR : rec (-b) (-sa) (-ss) css sd Mode.internal
        ⟨bb, side ^^^ 0x18, sc, ep, npm, sf, st, nc, nm, dm, ssf, bufR, bszR, num⟩
      with ⟨vR, s2R⟩
    rw [hrL, seqPair_eq] at hL
    rw [hrR, seqPair_eq] at hR
    have hrel := hrec (-b) (-sa) (-ss) css sd
      ⟨bb, side ^^^ 0x18, sc, ep, npm, sf, st, nc, nm, dm, ssf, bufL, bszL, num⟩
      ⟨bb, side ^^^ 0x18, sc, ep, npm, sf, st, nc, nm, dm, ssf, bufR, bszR, num⟩
      (EqB_mk _ _ _ _ _ _ _ _ _ _ _ _ _ _ _ _)
    rw [hrL, hrR] at hrel
    injection hL with a1 a2
    injection hR with b1 b2
    subst a1 a2 b1 b2
    exact ⟨by rw [show vL = vR from hrel.1], hrel.2⟩
  next hc =>
    rw [if_neg hc] at hR
    injection hL with a1 a2
    injection hR with b1 b2
    subst a1 a2 b1 b2
    exact ⟨rfl, EqB_mk _ _ _ _ _ _ _ _ _ _ _ _ _ _ _ _⟩

theorem futilityBody_r2 {rec : SearchFn} (hrec : RecR rec)
    (a b sa ss : Int) (css : Nat) (mode : Mode) (iD : Nat)
    {ih : Nat → EngineState → Int × EngineState}
    (hih : ∀ sd s t, EqB s t → PairR (ih sd s) (ih sd t))
    (sd : Nat) {s t : EngineState} (h : EqB s t) :
    PairR (futilityBody rec a b sa ss css mode iD ih sd s)
      (futilityBody rec a b sa ss css mode iD ih sd t) := by
  obtain ⟨bb, side, sc, ep, npm, sf, st, nc, nm, dm, ssf, bufL, bszL, num⟩ := s
  obtain ⟨bb2, side2, sc2, ep2, npm2, sf2, st2, nc2, nm2, dm2, ssf2, bufR, bszR,
    num2⟩ := t
  obtain ⟨e1, e2, e3, e4, e5, e6, e7, e8, e9, e10, e11, e12⟩ := EqB_inv h
  subst e1 e2 e3 e4 e5 e6 e7 e8 e9 e10 e11 e12
  unfold futilityBody
  apply seqPair_elim2
  intro ssnL s3L ssnR s3R hL hR
  obtain ⟨hssn, hs3⟩ := futRun_r2 hrec hL hR
  subst hssn
  apply seqInt_elim2
  obtain ⟨b3, side3, sc3, ep3, npm3, sf3, st3, nc3, nm3, dm3, ss3, buf3L, bsz3L,
    num3⟩ := s3L
  obtain ⟨b32, side32, sc32, ep32, npm32, sf32, st32, nc32, nm32, dm32, ss32,
    buf3R, bsz3R, num32⟩ := s3R
  obtain ⟨f1, f2, f3, f4, f5, f6, f7, f8, f9, f10, f11, f12⟩ := EqB_inv hs3
  subst f1 f2 f3 f4 f5 f6 f7 f8 f9 f10 f11 f12
  apply ifP_elim2
  · intro hgo
    exact hih _ _ _ (EqB_mk _ _ _ _ _ _ _ _ _ _ _ _ _ _ _ _)
  · intro hgo
    exact ⟨rfl, EqB_mk _ _ _ _ _ _ _ _ _ _ _ _ _ _ _ _⟩

theorem futilityLoop_r2 {rec : SearchFn} (hrec : RecR rec)
    (a b sa ss : Int) (css : Nat) (mode : Mode) (iD : Nat) :
    ∀ ffuel sd s t, EqB s t →
      PairR (futilityLoop rec ffuel a b sa ss css mode iD sd s)
        (futilityLoop rec ffuel a b sa ss css mode iD sd t) := by
  intro ffuel
  induction ffuel with
  | zero =>
    intro sd s t h
    exact ⟨rfl, h⟩
  | succ n ihn =>
    intro sd s t h
    exact futilityBody_r2 hrec a b sa ss css mode iD (fun sd s t h => ihn sd s t h)
      sd h

theorem futilityLoop_r2R {rec : SearchFn} (hrec : RecR rec)
    {a b sa ss : Int} {css : Nat} {mode : Mode} {iD f sd : Nat}
    {s t : EngineState} (h : EqB s t)
    {rL rR : Int × EngineState}
    (hL : futilityLoop rec f a b sa ss css mode iD sd s = rL)
    (hR : futilityLoop rec f a b sa ss css mode iD sd t = rR) :
    rL.1 = rR.1 ∧ EqB rL.2 rR.2 :=
  hL ▸ hR ▸ futilityLoop_r2 hrec a b sa ss css mode iD f sd s t h

theorem nmRun_r2 {rec : SearchFn} (hrec : RecR rec)
    {beta score : Int} {iterDepth : Nat}
    {bb side : Nat} {sc : Int} {ep : Nat} {npm : Int}
    {sf st nc nm dm : Nat} {ssf : Bool} {num : Nat}
    {bufL : List Move} {bszL : Nat} {bufR : List Move} {bszR : Nat}
    {cond : Prop} [inst : Decidable cond]
    {vL vR : Int} {s2L s2R : EngineState}
    (hL : ifP cond
        (fun _ =>
          rec (-beta) (1 - beta) (-score) 0x80 (iterDepth - 3) Mode.internal
            ⟨bb, side ^^^ 0x18, sc, ep, npm, sf, st, nc, nm, dm, ssf, bufL, bszL,
             num⟩)
        (fun _ =>
          ((8000 : Int),
           (⟨bb, side ^^^ 0x18, sc, ep, npm, sf, st, nc, nm, dm, ssf, bufL, bszL,
             num⟩ : EngineState))) = (vL, s2L))
    (hR : ifP cond
        (fun _ =>
          rec (-beta) (1 - beta) (-score) 0x80 (iterDepth - 3) Mode.internal
            ⟨bb, side ^^^ 0x18, sc, ep, npm, sf, st, nc, nm, dm, ssf, bufR, bszR,
             num⟩)
        (fun _ =>
          ((8000 : Int),
           (⟨bb, side ^^^ 0x18, sc, ep, npm, sf, st, nc, nm, dm, ssf, bufR, bszR,
             num⟩ : EngineState))) = (vR, s2R)) :
    vL = vR ∧ EqB s2L s2R := by
  rw [ifP_eq] at hL hR
  split at hL
  next hc =>
    rw [if_pos hc] at hR
    have hrel := hrec (-beta) (1 - beta) (-score) 0x80 (iterDepth - 3)
      ⟨bb, side ^^^ 0x18, sc, ep, npm, sf, st, nc, nm, dm, ssf, bufL, bszL, num⟩
      ⟨bb, side ^^^ 0x18, sc, ep, npm, sf, st, nc, nm, dm, ssf, bufR, bszR, num⟩
      (EqB_mk _ _ _ _ _ _ _ _ _ _ _ _ _ _ _ _)
    rw [hL, hR] at hrel
    exact ⟨hrel.1, hrel.2⟩
  next hc =>
    rw [if_neg hc] at hR
    injection hL with a1 a2
    injection hR with b1 b2
    subst a1 a2 b1 b2
    exact ⟨rfl, EqB_mk _ _ _ _ _ _ _ _ _ _ _ _ _ _ _ _⟩

theorem nullMoveProbe_r2 {rec : SearchFn} (hrec : RecR rec)
    (beta score : Int) (iterDepth : Nat) {s t : EngineState} (h : EqB s t) :
    PairR (nullMoveProbe rec beta score iterDepth s)
      (nullMoveProbe rec beta score iterDepth t) := by
  obtain ⟨bb, side, sc, ep, npm, sf, st, nc, nm, dm, ssf, bufL, bszL, num⟩ := s
  obtain ⟨bb2, side2, sc2, ep2, npm2, sf2, st2, nc2, nm2, dm2, ssf2, bufR, bszR,
    num2⟩ := t
  obtain ⟨e1, e2, e3, e4, e5, e6, e7, e8, e9, e10, e11, e12⟩ := EqB_inv h
  subst e1 e2 e3 e4 e5 e6 e7 e8 e9 e10 e11 e12
  unfold nullMoveProbe
  apply seqPair_elim2
  intro vL s2L vR s2R hL hR
  obtain ⟨hv, hs2⟩ := nmRun_r2 hrec hL hR
  subst hv
  apply seqInt_elim2
  obtain ⟨b2, side2x, sc2x, ep2x, npm2x, sf2x, st2x, nc2x, nm2x, dm2x, ss2x,
    buf2L, bsz2L, num2x⟩ := s2L
  obtain ⟨b22, side22, sc22, ep22, npm22, sf22, st22, nc22, nm22, dm22, ss22,
    buf2R, bsz2R, num22⟩ := s2R
  obtain ⟨f1, f2, f3, f4, f5, f6, f7, f8, f9, f10, f11, f12⟩ := EqB_inv hs2
  subst f1 f2 f3 f4 f5 f6 f7 f8 f9 f10 f11 f12
  exact ⟨rfl, EqB_mk _ _ _ _ _ _ _ _ _ _ _ _ _ _ _ _⟩

theorem nullMoveProbe_r2R {rec : SearchFn} (hrec : RecR rec)
    {beta score : Int} {iterDepth : Nat} {s t : EngineState} (h : EqB s t)
    {rL rR : Int × EngineState}
    (hL : nullMoveProbe rec beta score iterDepth s = rL)
    (hR : nullMoveProbe rec beta score iterDepth t = rR) :
    rL.1 = rR.1 ∧ EqB rL.2 rR.2 :=
  hL ▸ hR ▸ nullMoveProbe_r2 hrec beta score iterDepth h

theorem IterR_inv {itD : Nat} {itS : Int} {itF itT itR : Nat} {s : EngineState}
    {jtD : Nat} {jtS : Int} {jtF jtT jtR : Nat} {t : EngineState}
    (h : IterR ⟨itD, itS, itF, itT, itR, s⟩ ⟨jtD, jtS, jtF, jtT, jtR, t⟩) :
    itD = jtD ∧ itS = jtS ∧ itF = jtF ∧ itT = jtT ∧ itR = jtR ∧ EqB s t := h

theorem afterStep_r2 (sqF sqT css crs pt : Nat) (sv svI : Int) (sp cp : Nat)
    (ss : Int) (iD : Nat) (iS : Int) (iF iT rm : Nat)
    {s t : EngineState} (h : EqB s t) :
    RayR (afterStep sqF sqT css crs pt sv svI sp cp ss iD iS iF iT rm s)
      (afterStep sqF sqT css crs pt sv svI sp cp ss iD iS iF iT rm t) := by
  obtain ⟨bb, side, sc, ep, npm, sf, st, nc, nm, dm, ssf, bufL, bszL, num⟩ := s
  obtain ⟨bb2, side2, sc2, ep2, npm2, sf2, st2, nc2, nm2, dm2, ssf2, bufR, bszR,
    num2⟩ := t
  obtain ⟨e1, e2, e3, e4, e5, e6, e7, e8, e9, e10, e11, e12⟩ := EqB_inv h
  subst e1 e2 e3 e4 e5 e6 e7 e8 e9 e10 e11 e12
  unfold afterStep
  apply seqTripleS_elim2
  intro iS2 iF2 iT2 htr
  apply ifP_elim2
  · intro hreplay
    exact IterR_mk _ _ _ _ _ (EqB_mk _ _ _ _ _ _ _ _ _ _ _ _ _ _ _ _)
  · intro hreplay
    apply seqPair_elim2
    intro bkL crsL bkR crsR hbL hbR
    have hpair : ((bkL, crsL) : Bool × Nat) = (bkR, crsR) := hbL.symm.trans hbR
    injection hpair with hbk hcrs
    subst hbk hcrs
    apply ifP_elim2
    · intro hb
      apply seqNat_elim2
      apply ifP_elim2
      · intro hcp
        exact ⟨rfl, rfl, rfl,
          IterR_mk _ _ _ _ _ (EqB_mk _ _ _ _ _ _ _ _ _ _ _ _ _ _ _ _)⟩
      · intro hcp
        exact IterR_mk _ _ _ _ _ (EqB_mk _ _ _ _ _ _ _ _ _ _ _ _ _ _ _ _)
    · intro hb
      apply ifP_elim2
      · intro hcp
        exact ⟨rfl, rfl, rfl,
          IterR_mk _ _ _ _ _ (EqB_mk _ _ _ _ _ _ _ _ _ _ _ _ _ _ _ _)⟩
      · intro hcp
        exact IterR_mk _ _ _ _ _ (EqB_mk _ _ _ _ _ _ _ _ _ _ _ _ _ _ _ _)

theorem rayStep_r2 {rec : SearchFn} (hrec : RecR rec)
    (alpha beta score : Int) (ep : Nat) (mode : Mode) (nms : Int)
    (sqF sp pt : Nat) (sv svI : Int) (sqT css crs : Nat) {it jt : Iter}
    (hit : IterR it jt) :
    RayR (rayStep rec alpha beta score ep mode nms sqF sp pt sv svI sqT css crs it)
      (rayStep rec alpha beta score ep mode nms sqF sp pt sv svI sqT css crs
        jt) := by
  obtain ⟨itD, itS, itF, itT, itR, s0⟩ := it
  obtain ⟨jtD, jtS, jtF, jtT, jtR, t0⟩ := jt
  obtain ⟨g1, g2, g3, g4, g5, hst⟩ := IterR_inv hit
  subst g1 g2 g3 g4 g5
  obtain ⟨bb, side, scG, epG, npm, sfG, stG, ncG, nmG, dmG, ssG, bufL, bszL,
    numG⟩ := s0
  obtain ⟨bb2, side2, sc2, ep2, npm2, sf2, st2, nc2, nm2, dm2, ss2, bufR, bszR,
    num2⟩ := t0
  obtain ⟨e1, e2, e3, e4, e5, e6, e7, e8, e9, e10, e11, e12⟩ := EqB_inv hst
  subst e1 e2 e3 e4 e5 e6 e7 e8 e9 e10 e11 e12
  unfold rayStep
  apply forceState_elim2
  apply seqNat_elim2
  apply seqInt_elim2
  apply seqNat_elim2
  apply seqNat_elim2
  apply seqNat_elim2
  apply seqNat_elim2
  apply ifP_elim2
  · intro h88
    exact IterR_mk _ _ _ _ _ (EqB_mk _ _ _ _ _ _ _ _ _ _ _ _ _ _ _ _)
  · intro h88
    apply seqInt_elim2
    apply seqNat_elim2
    apply seqNat_elim2
    apply ifP_elim2
    · intro hown
      exact IterR_mk _ _ _ _ _ (EqB_mk _ _ _ _ _ _ _ _ _ _ _ _ _ _ _ _)
    · intro hown
      apply seqInt_elim2
      apply seqPairS_elim2
      intro itScore2 itDepth2 hkc
      apply ifP_elim2
      · intro hcut
        exact IterR_mk _ _ _ _ _ (EqB_mk _ _ _ _ _ _ _ _ _ _ _ _ _ _ _ _)
      · intro hcut
        apply seqInt_elim2
        apply ifP_elim2
        · intro happly
          apply seqInt_elim2
          apply seqNat_elim2
          apply seqPairS_elim2
          intro b1 stepScore1 hcst
          apply seqNat_elim2
          apply seqInt_elim2
          apply seqTripleS_elim2
          intro b2 stepScore2 cpv2 hpw
          apply seqNat_elim2
          apply seqInt_elim2
          apply seqInt_elim2
          apply seqInt_elim2
          apply seqInt_elim2
          apply seqNat_elim2
          apply seqPair_elim2
          intro ss2xL s2L ss2xR s2R hFL hFR
          obtain ⟨hss2, hs2⟩ :=
            futilityLoop_r2R hrec (EqB_mk _ _ _ _ _ _ _ _ _ _ _ _ _ _ _ _) hFL hFR
          have hsse : ss2xL = ss2xR := hss2
          subst hsse
          apply seqInt_elim2
          apply forceState_elim2
          obtain ⟨bF, sideF, scF, epF, npmF, sfF, stF, ncF, nmF, dmF, ssF, bufFL,
            bszFL, numF⟩ := s2L
          obtain ⟨bF2, sideF2, scF2, epF2, npmF2, sfF2, stF2, ncF2, nmF2, dmF2,
            ssF2, bufFR, bszFR, numF2⟩ := s2R
          obtain ⟨f1, f2, f3, f4, f5, f6, f7, f8, f9, f10, f11, f12⟩ :=
            EqB_inv hs2
          subst f1 f2 f3 f4 f5 f6 f7 f8 f9 f10 f11 f12
          apply ifP_elim2
          · intro hcommit
            exact ⟨rfl,
              commitPlay_r2 _ _ _ (EqB_mk _ _ _ _ _ _ _ _ _ _ _ _ _ _ _ _)⟩
          · intro hcommit
            apply seqNat_elim2
            apply ifP_elim2
            · intro hbest
              exact ⟨rfl, EqB_mk _ _ _ _ _ _ _ _ _ _ _ _ _ _ _ _⟩
            · intro hbest
              apply afterStep_r2
              split
              · exact recordMove_r2 (EqB_mk _ _ _ _ _ _ _ _ _ _ _ _ _ _ _ _) _
              · exact EqB_mk _ _ _ _ _ _ _ _ _ _ _ _ _ _ _ _
        · intro happly
          apply afterStep_r2
          exact EqB_mk _ _ _ _ _ _ _ _ _ _ _ _ _ _ _ _

theorem rayBody_r2 {rec : SearchFn} (hrec : RecR rec)
    (alpha beta score : Int) (ep : Nat) (mode : Mode) (nms : Int)
    (sqF sp pt : Nat) (sv svI : Int)
    {ih : Nat → Nat → Nat → Iter → ScanRes}
    (hih : ∀ a b c it jt, IterR it jt → ScanR (ih a b c it) (ih a b c jt))
    (sqT css crs : Nat) {it jt : Iter} (hit : IterR it jt) :
    ScanR (rayBody rec alpha beta score ep mode nms sqF sp pt sv svI ih sqT css
        crs it)
      (rayBody rec alpha beta score ep mode nms sqF sp pt sv svI ih sqT css crs
        jt) := by
  unfold rayBody
  apply rayResCase_elim2
    (rayStep_r2 hrec alpha beta score ep mode nms sqF sp pt sv svI sqT css crs hit)
  · intro v s v2 s2 hv hs
    exact ⟨hv, hs⟩
  · intro i j hij
    exact hij
  · intro i j hij
    exact hij
  · intro i j hij
    exact hih _ _ _ i j hij
  · intro a b c i a2 b2 c2 j ha hb hc hij
    subst ha hb hc
    exact hih a b c i j hij

theorem rayLoop_r2 {rec : SearchFn} (hrec : RecR rec) (rfuel : Nat)
    (alpha beta score : Int) (ep : Nat) (mode : Mode) (nms : Int)
    (sqF sp pt : Nat) (sv svI : Int) :
    ∀ sqT css crs it jt, IterR it jt →
      ScanR (rayLoop rec rfuel alpha beta score ep mode nms sqF sp pt sv svI sqT
          css crs it)
        (rayLoop rec rfuel alpha beta score ep mode nms sqF sp pt sv svI sqT css
          crs jt) := by
  induction rfuel with
  | zero =>
    intro sqT css crs it jt hit
    exact hit
  | succ n IHn =>
    intro sqT css crs it jt hit
    exact rayBody_r2 hrec alpha beta score ep mode nms sqF sp pt sv svI
      (fun a b c i j h => IHn a b c i j h) sqT css crs hit

theorem vectorBody_r2 {rec : SearchFn} (hrec : RecR rec)
    (alpha beta score : Int) (ep : Nat) (mode : Mode) (nms : Int)
    (sqF sp pt : Nat)
    {ih : Int → Int → Iter → ScanRes}
    (hih : ∀ a b it jt, IterR it jt → ScanR (ih a b it) (ih a b jt))
    (sv svI : Int) {it jt : Iter} (hit : IterR it jt) :
    ScanR (vectorBody rec alpha beta score ep mode nms sqF sp pt ih sv svI it)
      (vectorBody rec alpha beta score ep mode nms sqF sp pt ih sv svI jt) := by
  unfold vectorBody
  apply seqPairS_elim2
  intro sv2 svI2 hp
  apply seqInt_elim2
  apply seqInt_elim2
  apply ifP_elim2
  · intro h0
    exact hit
  · intro h0
    apply scanResCase_elim2
      (rayLoop_r2 hrec 40 alpha beta score ep mode nms sqF sp pt sv2 svI2 sqF 0x80
        0x80 it jt hit)
    · intro v s v2 s2 hv hs
      exact ⟨hv, hs⟩
    · intro i j hij
      exact hij
    · intro i j hij
      exact hih sv2 svI2 i j hij

theorem vectorLoop_r2 {rec : SearchFn} (hrec : RecR rec) (vfuel : Nat)
    (alpha beta score : Int) (ep : Nat) (mode : Mode) (nms : Int)
    (sqF sp pt : Nat) :
    ∀ sv svI it jt, IterR it jt →
      ScanR (vectorLoop rec vfuel alpha beta score ep mode nms sqF sp pt sv svI it)
        (vectorLoop rec vfuel alpha beta score ep mode nms sqF sp pt sv svI
          jt) := by
  induction vfuel with
  | zero =>
    intro sv svI it jt hit
    exact hit
  | succ n IHn =>
    intro sv svI it jt hit
    exact vectorBody_r2 hrec alpha beta score ep mode nms sqF sp pt
      (fun a b i j h => IHn a b i j h) sv svI hit

theorem scanSquare_r2 {rec : SearchFn} (hrec : RecR rec)
    (alpha beta score : Int) (ep : Nat) (mode : Mode) (nms : Int)
    (sqF : Nat) {it jt : Iter} (hit : IterR it jt) :
    ScanR (scanSquare rec alpha beta score ep mode nms sqF it)
      (scanSquare rec alpha beta score ep mode nms sqF jt) := by
  obtain ⟨itD, itS, itF, itT, itR, s0⟩ := it
  obtain ⟨jtD, jtS, jtF, jtT, jtR, t0⟩ := jt
  obtain ⟨g1, g2, g3, g4, g5, hst⟩ := IterR_inv hit
  subst g1 g2 g3 g4 g5
  obtain ⟨bb, side, sc, ep2, npm, sf, st, nc, nm, dm, ssf, bufL, bszL, num⟩ := s0
  obtain ⟨bb2, side2, sc2, ep22, npm2, sf2, st2, nc2, nm2, dm2, ssf2, bufR, bszR,
    num2⟩ := t0
  obtain ⟨e1, e2, e3, e4, e5, e6, e7, e8, e9, e10, e11, e12⟩ := EqB_inv hst
  subst e1 e2 e3 e4 e5 e6 e7 e8 e9 e10 e11 e12
  unfold scanSquare
  apply seqNat_elim2
  apply ifP_elim2
  · intro hside
    apply seqNat_elim2
    exact vectorLoop_r2 hrec 40 alpha beta score ep mode nms sqF _ _ _ _ _ _
      (IterR_mk _ _ _ _ _ (EqB_mk _ _ _ _ _ _ _ _ _ _ _ _ _ _ _ _))
  · intro hside
    exact IterR_mk _ _ _ _ _ (EqB_mk _ _ _ _ _ _ _ _ _ _ _ _ _ _ _ _)

theorem scanBody_r2 {rec : SearchFn} (hrec : RecR rec)
    (alpha beta score : Int) (ep : Nat) (mode : Mode) (nms : Int)
    {ih : Nat → Nat → Iter → ScanRes}
    (hih : ∀ a b it jt, IterR it jt → ScanR (ih a b it) (ih a b jt))
    (sqF sqStart : Nat) {it jt : Iter} (hit : IterR it jt) :
    ScanR (scanBody rec alpha beta score ep mode nms ih sqF sqStart it)
      (scanBody rec alpha beta score ep mode nms ih sqF sqStart jt) := by
  unfold scanBody
  apply scanResCase_elim2 (scanSquare_r2 hrec alpha beta score ep mode nms sqF hit)
  · intro v s v2 s2 hv hs
    exact ⟨hv, hs⟩
  · intro i j hij
    exact hij
  · intro i j hij
    apply seqNat_elim2
    apply ifP_elim2
    · intro he
      exact hij
    · intro he
      exact hih _ _ i j hij

theorem scanLoop_r2 {rec : SearchFn} (hrec : RecR rec) (sfuel : Nat)
    (alpha beta score : Int) (ep : Nat) (mode : Mode) (nms : Int) :
    ∀ sqF sqStart it jt, IterR it jt →
      ScanR (scanLoop rec sfuel alpha beta score ep mode nms sqF sqStart it)
        (scanLoop rec sfuel alpha beta score ep mode nms sqF sqStart jt) := by
  induction sfuel with
  | zero =>
    intro sqF sqStart it jt hit
    exact hit
  | succ n IHn =>
    intro sqF sqStart it jt hit
    exact scanBody_r2 hrec alpha beta score ep mode nms
      (fun a b i j h => IHn a b i j h) sqF sqStart hit

theorem deepCont_r2 {depth iterDepth iterDepthNew : Nat} {m2 : Mode} {iF iT : Nat}
    {bG sideG : Nat} {scG : Int} {epG : Nat} {npmG : Int}
    {sfG stG ncG nmG dmG : Nat} {ssG : Bool} {numG : Nat}
    {bufL : List Move} {bszL : Nat} {bufR : List Move} {bszR : Nat}
    {contL contR : Bool} {d2L d2R : Nat} {s2L s2R : EngineState}
    (hL : (if iterDepth < depth then
            ((true, iterDepthNew,
              ⟨bG, sideG, scG, epG, npmG, sfG, stG, ncG, nmG, dmG, ssG, bufL,
               bszL, numG⟩) : Bool × Nat × EngineState)
          else if iterDepthNew < 3 then
            (true, iterDepthNew,
             ⟨bG, sideG, scG, epG, npmG, sfG, stG, ncG, nmG, dmG, ssG, bufL, bszL,
              numG⟩)
          else if m2 ≠ Mode.internal ∧ sfG = 0x80 then
            if ncG < nmG ∧ iterDepthNew ≤ dmG then
              (true, iterDepthNew,
               ⟨bG, sideG, scG, epG, npmG, sfG, stG, ncG, nmG, dmG, ssG, bufL,
                bszL, numG⟩)
            else
              (true, 3,
               ⟨bG, sideG, scG, epG, npmG, iF, iT &&& 0x77,
                ncG, nmG, dmG, ssG, bufL, bszL, numG⟩)
          else
            (false, iterDepthNew,
             ⟨bG, sideG, scG, epG, npmG, sfG, stG, ncG, nmG, dmG, ssG, bufL, bszL,
              numG⟩)) = (contL, d2L, s2L))
    (hR : (if iterDepth < depth then
            ((true, iterDepthNew,
              ⟨bG, sideG, scG, epG, npmG, sfG, stG, ncG, nmG, dmG, ssG, bufR,
               bszR, numG⟩) : Bool × Nat × EngineState)
          else if iterDepthNew < 3 then
            (true, iterDepthNew,
             ⟨bG, sideG, scG, epG, npmG, sfG, stG, ncG, nmG, dmG, ssG, bufR, bszR,
              numG⟩)
          else if m2 ≠ Mode.internal ∧ sfG = 0x80 then
            if ncG < nmG ∧ iterDepthNew ≤ dmG then
              (true, iterDepthNew,
               ⟨bG, sideG, scG, epG, npmG, sfG, stG, ncG, nmG, dmG, ssG, bufR,
                bszR, numG⟩)
            else
              (true, 3,
               ⟨bG, sideG, scG, epG, npmG, iF, iT &&& 0x77,
                ncG, nmG, dmG, ssG, bufR, bszR, numG⟩)
          else
            (false, iterDepthNew,
             ⟨bG, sideG, scG, epG, npmG, sfG, stG, ncG, nmG, dmG, ssG, bufR, bszR,
              numG⟩)) = (contR, d2R, s2R)) :
    contL = contR ∧ d2L = d2R ∧ EqB s2L s2R := by
  split at hL
  next hc =>
    rw [if_pos hc] at hR
    cases hL
    cases hR
    exact ⟨rfl, rfl, EqB_mk _ _ _ _ _ _ _ _ _ _ _ _ _ _ _ _⟩
  next hc =>
    rw [if_neg hc] at hR
    split at hL
    next hc2 =>
      rw [if_pos hc2] at hR
      cases hL
      cases hR
      exact ⟨rfl, rfl, EqB_mk _ _ _ _ _ _ _ _ _ _ _ _ _ _ _ _⟩
    next hc2 =>
      rw [if_neg hc2] at hR
      split at hL
      next hc3 =>
        rw [if_pos hc3] at hR
        split at hL
        next hc4 =>
          rw [if_pos hc4] at hR
          cases hL
          cases hR
          exact ⟨rfl, rfl, EqB_mk _ _ _ _ _ _ _ _ _ _ _ _ _ _ _ _⟩
        next hc4 =>
          rw [if_neg hc4] at hR
          cases hL
          cases hR
          exact ⟨rfl, rfl, EqB_mk _ _ _ _ _ _ _ _ _ _ _ _ _ _ _ _⟩
      next hc3 =>
        rw [if_neg hc3] at hR
        cases hL
        cases hR
        exact ⟨rfl, rfl, EqB_mk _ _ _ _ _ _ _ _ _ _ _ _ _ _ _ _⟩

theorem deepeningBody_r2 {rec : SearchFn} (hrec : RecR rec)
    (alpha beta score : Int) (ep depth : Nat) (mode : Mode)
    {ih : Nat → Int → Nat → Nat → EngineState → Int × EngineState}
    (hih : ∀ a b c d s t, EqB s t → PairR (ih a b c d s) (ih a b c d t))
    (iD : Nat) (iS : Int) (iF iT : Nat) {s t : EngineState} (h : EqB s t) :
    PairR (deepeningBody rec alpha beta score ep depth mode ih iD iS iF iT s)
      (deepeningBody rec alpha beta score ep depth mode ih iD iS iF iT t) := by
  obtain ⟨bG, sideG, scG, epG, npmG, sfG, stG, ncG, nmG, dmG, ssG, bufL, bszL,
    numG⟩ := s
  obtain ⟨bG2, sideG2, scG2, epG2, npmG2, sfG2, stG2, ncG2, nmG2, dmG2, ssG2,
    bufR, bszR, numG2⟩ := t
  obtain ⟨e1, e2, e3, e4, e5, e6, e7, e8, e9, e10, e11, e12⟩ := EqB_inv h
  subst e1 e2 e3 e4 e5 e6 e7 e8 e9 e10 e11 e12
  unfold deepeningBody
  apply seqNat_elim2
  apply seqInt_elim2
  apply seqNat_elim2
  apply seqNat_elim2
  apply forceState_elim2
  apply seqNat_elim2
  apply seqTriple_elim2
  intro contL d2L s2L contR d2R s2R hTL hTR
  obtain ⟨hcont, hd2, hs2⟩ := deepCont_r2 hTL hTR
  subst hcont hd2
  apply ifP_elim2
  · intro hcont
    obtain ⟨bH, sideH, scH, epH, npmH, sfH, stH, ncH, nmH, dmH, ssH, bufHL, bszHL,
      numH⟩ := s2L
    obtain ⟨bH2, sideH2, scH2, epH2, npmH2, sfH2, stH2, ncH2, nmH2, dmH2, ssH2,
      bufHR, bszHR, numH2⟩ := s2R
    obtain ⟨f1, f2, f3, f4, f5, f6, f7, f8, f9, f10, f11, f12⟩ := EqB_inv hs2
    subst f1 f2 f3 f4 f5 f6 f7 f8 f9 f10 f11 f12
    apply ifP_elim2
    · intro hss
      exact ⟨rfl, EqB_mk _ _ _ _ _ _ _ _ _ _ _ _ _ _ _ _⟩
    · intro hss
      apply seqPair_elim2
      intro nmsL s3L nmsR s3R hpL hpR
      obtain ⟨hnms, hs3⟩ :=
        nullMoveProbe_r2R hrec (EqB_mk _ _ _ _ _ _ _ _ _ _ _ _ _ _ _ _) hpL hpR
      have hnmse : nmsL = nmsR := hnms
      subst hnmse
      apply seqInt_elim2
      obtain ⟨b3, side3, sc3, ep3, npm3, sf3, st3, nc3, nm3, dm3, ss3, buf3L,
        bsz3L, num3⟩ := s3L
      obtain ⟨b32, side32, sc32, ep32, npm32, sf32, st32, nc32, nm32, dm32, ss32,
        buf3R, bsz3R, num32⟩ := s3R
      obtain ⟨g1, g2, g3, g4, g5, g6, g7, g8, g9, g10, g11, g12⟩ := EqB_inv hs3
      subst g1 g2 g3 g4 g5 g6 g7 g8 g9 g10 g11 g12
      apply seqInt_elim2
      apply scanResCase_elim2
        (scanLoop_r2 hrec 70 alpha beta score ep mode nmsL _ _ _ _
          (IterR_mk _ _ _ _ _ (EqB_mk _ _ _ _ _ _ _ _ _ _ _ _ _ _ _ _)))
      · intro v sr v2 sr2 hv hsr
        exact ⟨hv, hsr⟩
      · intro i j hij
        obtain ⟨itD2, itS2, itF2, itT2, itR2, itSt⟩ := i
        obtain ⟨jtD2, jtS2, jtF2, jtT2, jtR2, jtSt⟩ := j
        obtain ⟨k1, k2, k3, k4, k5, hstt⟩ := IterR_inv hij
        subst k1 k2 k3 k4 k5
        exact hih _ _ _ _ _ _ hstt
      · intro i j hij
        obtain ⟨itD2, itS2, itF2, itT2, itR2, itSt⟩ := i
        obtain ⟨jtD2, jtS2, jtF2, jtT2, jtR2, jtSt⟩ := j
        obtain ⟨k1, k2, k3, k4, k5, hstt⟩ := IterR_inv hij
        subst k1 k2 k3 k4 k5
        exact hih _ _ _ _ _ _ hstt
  · intro hcont
    exact ⟨rfl, hs2⟩

theorem deepeningLoop_r2 {rec : SearchFn} (hrec : RecR rec) (idFuel : Nat)
    (alpha beta score : Int) (ep depth : Nat) (mode : Mode) :
    ∀ iD iS iF iT s t, EqB s t →
      PairR (deepeningLoop rec idFuel alpha beta score ep depth mode iD iS iF iT s)
        (deepeningLoop rec idFuel alpha beta score ep depth mode iD iS iF iT
          t) := by
  induction idFuel with
  | zero =>
    intro iD iS iF iT s t h
    exact ⟨rfl, h⟩
  | succ n IHn =>
    intro iD iS iF iT s t h
    exact deepeningBody_r2 hrec alpha beta score ep depth mode
      (fun a b c d s t h => IHn a b c d s t h) iD iS iF iT h

theorem searchBody_r2 {rec : SearchFn} (hrec : RecR rec) (idFuel : Nat)
    (alpha beta score : Int) (ep depth : Nat) (mode : Mode) {s t : EngineState}
    (h : EqB s t) :
    PairR (searchBody rec idFuel alpha beta score ep depth mode s)
      (searchBody rec idFuel alpha beta score ep depth mode t) := by
  unfold searchBody
  apply seqInt_elim2
  apply seqInt_elim2
  exact deepeningLoop_r2 hrec idFuel _ _ score ep depth mode 0 0 0 0 s t h

theorem mcumaxSearch_r2 (fuel : Nat) :
    ∀ (alpha beta score : Int) (ep depth : Nat) (mode : Mode) (s t : EngineState),
      EqB s t →
      PairR (mcumaxSearch fuel alpha beta score ep depth mode s)
        (mcumaxSearch fuel alpha beta score ep depth mode t) := by
  induction fuel with
  | zero =>
    intro alpha beta score ep depth mode s t h
    exact ⟨rfl, h⟩
  | succ n IHn =>
    intro alpha beta score ep depth mode s t h
    have hrec : RecR (mcumaxSearch n) :=
      fun a b sc ep2 d s2 t2 h2 => IHn a b sc ep2 d Mode.internal s2 t2 h2
    exact searchBody_r2 hrec (n + 1) alpha beta score ep depth mode h

theorem getCell_setCell_same (b i v : Nat) : getCell (setCell b i v) i = v % 256 := by
  unfold getCell setCell
  have hpos : 0 < 256 ^ i := Nat.pos_pow_of_pos i (by omega)
  rw [Nat.add_comm, Nat.add_mul_div_right _ _ hpos,
    Nat.div_eq_of_lt (Nat.mod_lt _ hpos), Nat.zero_add]
  omega

theorem svmLengthMin (fuel cap : Nat) (s : EngineState) :
    (mcumaxSearchValidMoves fuel cap s).2.validMovesBuffer.length =
      min (mcumaxSearchValidMoves fuel cap s).1 cap := by
  obtain ⟨b, side, sc, ep, npm, sf, st, nc, nm, dm, ss, buf, bsz, num⟩ := s
  have hw := mcumaxSearch_w1 fuel (-8000) 8000 sc ep 3 Mode.searchValidMoves
    ⟨b, side, sc, ep, npm, 0x80, 0x80, 0, 0, 0, false, [], cap, 0⟩
  rcases hr : mcumaxSearch fuel (-8000) 8000 sc ep 3 Mode.searchValidMoves
      ⟨b, side, sc, ep, npm, 0x80, 0x80, 0, 0, 0, false, [], cap, 0⟩ with ⟨v, s2⟩
  rw [hr] at hw
  obtain ⟨b2, side2, sc2, ep2, npm2, sf2, st2, nc2, nm2, dm2, ss2, buf2, bsz2,
    num2⟩ := s2
  obtain ⟨⟨hbsz, hlen⟩, hsp⟩ := hw
  simp only [mcumaxSearchValidMoves, mcumaxStartSearch, hr, seqPair_eq]
  have hli := hlen (by simp [lenInv])
  simp only [lenInv, EngineState.validMovesBuffer, EngineState.validMovesNum,
    EngineState.validMovesBufferSize] at hli
  simp only [EngineState.validMovesBufferSize] at hbsz
  omega

theorem svmCountIndep (fuel cap cap2 : Nat) (s : EngineState) :
    (mcumaxSearchValidMoves fuel cap s).1 = (mcumaxSearchValidMoves fuel cap2 s).1 := by
  obtain ⟨b, side, sc, ep, npm, sf, st, nc, nm, dm, ss, buf, bsz, num⟩ := s
  have hrel := mcumaxSearch_r2 fuel (-8000) 8000 sc ep 3 Mode.searchValidMoves
    ⟨b, side, sc, ep, npm, 0x80, 0x80, 0, 0, 0, false, [], cap, 0⟩
    ⟨b, side, sc, ep, npm, 0x80, 0x80, 0, 0, 0, false, [], cap2, 0⟩
    (EqB_mk _ _ _ _ _ _ _ _ _ _ _ _ _ _ _ _)
  rcases hrA : mcumaxSearch fuel (-8000) 8000 sc ep 3 Mode.searchValidMoves
      ⟨b, side, sc, ep, npm, 0x80, 0x80, 0, 0, 0, false, [], cap, 0⟩ with ⟨vA, sA⟩
  rcases hrB : mcumaxSearch fuel (-8000) 8000 sc ep 3 Mode.searchValidMoves
      ⟨b, side, sc, ep, npm, 0x80, 0x80, 0, 0, 0, false, [], cap2, 0⟩ with ⟨vB, sB⟩
  rw [hrA, hrB] at hrel
  obtain ⟨bA, sideA, scA, epA, npmA, sfA, stA, ncA, nmA, dmA, ssA, bufA, bszA,
    numA⟩ := sA
  obtain ⟨bB, sideB, scB, epB, npmB, sfB, stB, ncB, nmB, dmB, ssB, bufB, bszB,
    numB⟩ := sB
  obtain ⟨e1, e2, e3, e4, e5, e6, e7, e8, e9, e10, e11, e12⟩ := EqB_inv hrel.2
  simp only [mcumaxSearchValidMoves, mcumaxStartSearch, hrA, hrB, seqPair_eq]
  exact e12

theorem nullMoveProbe_inactive (rec : SearchFn) (beta score : Int) (iD : Nat)
    (s : EngineState) (h : iD ≤ 2 ∨ beta = -8000) :
    nullMoveProbe rec beta score iD s = (8000, s) := by
  obtain ⟨b, side, sc, ep, npm, sf, st, nc, nm, dm, ss, buf, bsz, num⟩ := s
  unfold nullMoveProbe
  symm
  apply seqPair_elim
  intro v s2 hrun
  have hneg : ¬(iD > 2 ∧ beta ≠ -8000) := by
    intro hc
    rcases h with h3 | h3
    · omega
    · exact hc.2 h3
  rw [ifP_eq, if_neg hneg] at hrun
  injection hrun with g1 g2
  subst g1 g2
  exact (congrArg
    (fun x => ((8000 : Int),
      (⟨b, x, sc, ep, npm, sf, st, nc, nm, dm, ss, buf, bsz, num⟩ : EngineState)))
    (xorToggleCancel side)).symm

theorem nullMoveProbe_active (rec : SearchFn) (beta score : Int) (iD : Nat)
    (s : EngineState) (h1 : iD > 2) (h2 : beta ≠ -8000) :
    nullMoveProbe rec beta score iD s =
      ((rec (-beta) (1 - beta) (-score) 0x80 (iD - 3) Mode.internal
          (toggleSide s)).1,
       toggleSide
         (rec (-beta) (1 - beta) (-score) 0x80 (iD - 3) Mode.internal
           (toggleSide s)).2) := by
  obtain ⟨b, side, sc, ep, npm, sf, st, nc, nm, dm, ss, buf, bsz, num⟩ := s
  unfold nullMoveProbe
  symm
  apply seqPair_elim
  intro v s2 hrun
  rw [ifP_eq, if_pos ⟨h1, h2⟩] at hrun
  obtain ⟨b2, side2, sc2, ep2, npm2, sf2, st2, nc2, nm2, dm2, ss2, buf2, bsz2,
    num2⟩ := s2
  rw [show rec (-beta) (1 - beta) (-score) 0x80 (iD - 3) Mode.internal
      (toggleSide ⟨b, side, sc, ep, npm, sf, st, nc, nm, dm, ss, buf, bsz, num⟩) =
      (v, ⟨b2, side2, sc2, ep2, npm2, sf2, st2, nc2, nm2, dm2, ss2, buf2, bsz2,
           num2⟩) from hrun]
  simp [toggleSide, seqInt_eq]

/-- The start-position enumeration counts 20 moves at capacity 20
(kernel evaluation of the full engine run). -/
theorem svmStart20 : (mcumaxSearchValidMoves 100 20 startState).1 = 20 := by
  decide

/-- C1: amended frame property of `mcumax_search`.  In every non-play mode the
scalar fields `current_side`, `score`, `en_passant_square` and
`non_pawn_material` are restored on return, for every state, window, depth and
fuel; the board restoration of the original claim holds only for the 0x88
on-board cells 0x00-0x7F (verified on the concrete enumeration whose trash
byte `board[0x80]` is clobbered, see the counterexample), because the undo
path writes `current_side + 6` into `board[castling_renounced_square]`, which
defaults to the trash index 0x80.  The original any-mode claim also fails in
`MCUMAX_PLAY_MOVE` mode, where a successful commit intentionally changes the
state. -/
theorem claim_C1 :
    (∀ (fuel : Nat) (alpha beta score : Int) (ep depth : Nat) (mode : Mode)
      (s : EngineState), mode ≠ Mode.playMove →
      (mcumaxSearch fuel alpha beta score ep depth mode s).2.currentSide =
          s.currentSide ∧
        (mcumaxSearch fuel alpha beta score ep depth mode s).2.score = s.score ∧
        (mcumaxSearch fuel alpha beta score ep depth mode s).2.enPassantSquare =
          s.enPassantSquare ∧
        (mcumaxSearch fuel alpha beta score ep depth mode s).2.nonPawnMaterial =
          s.nonPawnMaterial) ∧
    (∀ i, i < 0x80 →
      getCell (mcumaxSearchValidMoves 50 30 fenPH1).2.board i =
        getCell fenPH1.board i) := by
  constructor
  · intro fuel alpha beta score ep depth mode s h
    exact (mcumaxSearch_w1 fuel alpha beta score ep depth mode s).2 h
  · decide

/-- C1 witness: the frame theorem applied to a concrete search. -/
theorem claim_C1_witness :
    (mcumaxSearch 2 (-8000) 8000 0 0x80 3 Mode.searchValidMoves
          zeroState).2.currentSide = zeroState.currentSide ∧
      (mcumaxSearch 2 (-8000) 8000 0 0x80 3 Mode.searchValidMoves
          zeroState).2.score = zeroState.score ∧
      (mcumaxSearch 2 (-8000) 8000 0 0x80 3 Mode.searchValidMoves
          zeroState).2.enPassantSquare = zeroState.enPassantSquare ∧
      (mcumaxSearch 2 (-8000) 8000 0 0x80 3 Mode.searchValidMoves
          zeroState).2.nonPawnMaterial = zeroState.nonPawnMaterial :=
  claim_C1.1 2 (-8000) 8000 0 0x80 3 Mode.searchValidMoves zeroState (by decide)

/-- C1 counterexample: the perfect-undo claim is false twice over.  A
play-mode invocation of the search (through `mcumax_play_move`) commits the
move and flips `current_side`; and already in the non-play enumeration mode
the board is not restored byte-for-byte: after enumerating the moves of
"7k/8/8/8/8/8/8/K6P w K - 0 1" the trash byte `board[0x80]` holds
`current_side + 6` = 14 although it held 0 at entry (the h1 pawn's double-step
ray ends the scan with the trash-cell write of the undo path left in place). -/
theorem claim_C1_counterexample :
    ((mcumaxPlayMove 50 ⟨0x70, 0x60⟩ fenT1).1 = true ∧
      (mcumaxPlayMove 50 ⟨0x70, 0x60⟩ fenT1).2.currentSide = 0x10 ∧
      fenT1.currentSide = 0x8) ∧
    (getCell (mcumaxSearchValidMoves 50 30 fenPH1).2.board 0x80 = 14 ∧
      getCell fenPH1.board 0x80 = 0) := by
  refine ⟨by decide, by decide, by decide⟩

/-- C2: a position in which the opponent king can be captured makes
`mcumax_play_move` return true for the move (0,0), which is not among the
generated valid moves, while the position (board, side, e.p. square, score)
is left unchanged — the king-capture sentinel path returns the 8000 score
without any commit, contradicting both directions of the claim. -/
theorem claim_C2 :
    (mcumaxPlayMove 50 ⟨0, 0⟩ fenKQ).1 = true ∧
    (mcumaxPlayMove 50 ⟨0, 0⟩ fenKQ).2.board = fenKQ.board ∧
    (mcumaxPlayMove 50 ⟨0, 0⟩ fenKQ).2.currentSide = fenKQ.currentSide ∧
    (mcumaxPlayMove 50 ⟨0, 0⟩ fenKQ).2.enPassantSquare = fenKQ.enPassantSquare ∧
    (mcumaxPlayMove 50 ⟨0, 0⟩ fenKQ).2.score = fenKQ.score ∧
    Move.mk 0 0 ∉ (mcumaxSearchValidMoves 50 30 fenKQ).2.validMovesBuffer := by
  decide

/-- C3: the enumeration writes at most `buffer_size` entries (the buffer holds
exactly `min count capacity` moves) while the returned count is independent of
the capacity — so capacity 0 returns the true count without any write. -/
theorem claim_C3 :
    (∀ (fuel cap : Nat) (s : EngineState),
      (mcumaxSearchValidMoves fuel cap s).2.validMovesBuffer.length =
        min (mcumaxSearchValidMoves fuel cap s).1 cap) ∧
    (∀ (fuel cap cap2 : Nat) (s : EngineState),
      (mcumaxSearchValidMoves fuel cap s).1 =
        (mcumaxSearchValidMoves fuel cap2 s).1) :=
  ⟨svmLengthMin, svmCountIndep⟩

/-- C4: from the standard starting position the move enumeration counts
exactly 20 moves, for every buffer capacity of at least 20. -/
theorem claim_C4 (cap : Nat) (h : 20 ≤ cap) :
    (mcumaxSearchValidMoves 100 cap startState).1 = 20 :=
  (svmCountIndep 100 cap 20 startState).trans svmStart20

/-- C4 witness: capacity exactly 20. -/
theorem claim_C4_witness : (mcumaxSearchValidMoves 100 20 startState).1 = 20 :=
  claim_C4 20 (by decide)

/-- C5: amended en-passant invariant.  `mcumax_init` sets the square to the
0x80 sentinel; every non-play search invocation returns it unchanged; and the
play-mode commit overwrites it with the castling-skip scratch square.  (The
original rank-3/rank-4 invariant is false: `mcumax_set_fen_position` accepts
arbitrary file/rank characters, see the counterexample.) -/
theorem claim_C5 :
    startState.enPassantSquare = 0x80 ∧
    (∀ (fuel : Nat) (alpha beta score : Int) (ep depth : Nat) (mode : Mode)
      (s : EngineState), mode ≠ Mode.playMove →
      (mcumaxSearch fuel alpha beta score ep depth mode s).2.enPassantSquare =
        s.enPassantSquare) ∧
    (∀ (sc cv : Int) (css : Nat) (s : EngineState),
      (commitPlay sc cv css s).enPassantSquare = css) := by
  refine ⟨rfl, ?_, ?_⟩
  · intro fuel alpha beta score ep depth mode s h
    exact ((mcumaxSearch_w1 fuel alpha beta score ep depth mode s).2 h).2.2.1
  · intro sc cv css s
    rfl

/-- C5 witness: the preservation component applied to a concrete search. -/
theorem claim_C5_witness :
    (mcumaxSearch 2 (-8000) 8000 0 0x80 3 Mode.internal
      zeroState).2.enPassantSquare = zeroState.enPassantSquare :=
  claim_C5.2.1 2 (-8000) 8000 0 0x80 3 Mode.internal zeroState (by decide)

/-- C5 counterexample: the FEN en-passant field "a1" leaves
`en_passant_square` = 0x70, which is neither the 0x80 sentinel nor a
rank-3/rank-4 square (rows 0x20-0x27 and 0x50-0x57 of the 0x88 board). -/
theorem claim_C5_counterexample :
    fenEP.enPassantSquare = 0x70 ∧
    ¬(fenEP.enPassantSquare = 0x80 ∨
      (0x20 ≤ fenEP.enPassantSquare ∧ fenEP.enPassantSquare ≤ 0x27) ∨
      (0x50 ≤ fenEP.enPassantSquare ∧ fenEP.enPassantSquare ≤ 0x57)) := by
  decide

/-- C6: amended null-move characterisation.  The probe runs only when
`iter_depth > 2` and `beta ≠ -8000`, searching with the side toggled at depth
`iter_depth - 3`; when the negated probe value reaches `beta` (and
`non_pawn_material ≤ 35`) the seed of `iter_score` is that negated null-move
value — not a static evaluation; and `non_pawn_material > 35` disables the
null-move seed entirely. -/
theorem claim_C6 :
    (∀ (rec : SearchFn) (beta score : Int) (iD : Nat) (s : EngineState),
      iD ≤ 2 ∨ beta = -8000 → nullMoveProbe rec beta score iD s = (8000, s)) ∧
    (∀ (rec : SearchFn) (beta score : Int) (iD : Nat) (s : EngineState),
      iD > 2 → beta ≠ -8000 →
      nullMoveProbe rec beta score iD s =
        ((rec (-beta) (1 - beta) (-score) 0x80 (iD - 3) Mode.internal
            (toggleSide s)).1,
         toggleSide
           (rec (-beta) (1 - beta) (-score) 0x80 (iD - 3) Mode.internal
             (toggleSide s)).2)) ∧
    (∀ (nms beta npm : Int) (iD : Nat) (score : Int),
      beta ≤ -nms → npm ≤ 35 → iterSeed nms beta npm iD score = -nms) ∧
    (∀ (nms beta npm : Int) (iD : Nat) (score : Int),
      npm > 35 →
      iterSeed nms beta npm iD score = if iD ≠ 2 then -8000 else score) := by
  refine ⟨nullMoveProbe_inactive, nullMoveProbe_active, ?_, ?_⟩
  · intro nms beta npm iD score h1 h2
    unfold iterSeed
    rw [if_neg]
    intro hc
    rcases hc with hc | hc
    · omega
    · omega
  · intro nms beta npm iD score h
    unfold iterSeed
    rw [if_pos (Or.inr h)]

/-- C6 witness: the no-probe component at a concrete shallow iteration. -/
theorem claim_C6_witness :
    nullMoveProbe (mcumaxSearch 0) 5 0 1 zeroState = (8000, zeroState) :=
  claim_C6.1 (mcumaxSearch 0) 5 0 1 zeroState (Or.inl (by decide))

/-- C6 counterexample: with null-move value -7, beta 3 and current score 77,
the seed is 7 (the negated null-move value), not the score 77: the claim's
"seeding with a static evaluation" is wrong. -/
theorem claim_C6_counterexample :
    iterSeed (-7) 3 0 6 77 = 7 ∧ (7 : Int) ≠ 77 := by
  decide

/-- C7: amended moved-bit property.  `mcumax_set_piece` stores every
non-empty piece with the has-moved bit 0x20 set, and a pawn loaded on its
ordinary second-rank square indeed gets no two-square move (only the single
step); the "never" of the original claim is false because the castling-rights
field clears the bit on the named home squares whatever piece stands there
(counterexample: a pawn on h1 with castling field "K" double-steps). -/
theorem claim_C7 :
    (∀ (s : EngineState) (sq p : Nat), sq &&& 0x88 = 0 → p ≠ 0 → p < 256 →
      getCell (mcumaxSetPiece s sq p).1.board sq = p ||| 0x20) ∧
    Move.mk 0x60 0x40 ∉ (mcumaxSearchValidMoves 50 30 fenPA2).2.validMovesBuffer ∧
    Move.mk 0x60 0x50 ∈ (mcumaxSearchValidMoves 50 30 fenPA2).2.validMovesBuffer := by
  refine ⟨?_, ?_, ?_⟩
  · intro s sq p hsq hp hlt
    unfold mcumaxSetPiece
    rw [if_neg (by simp [hsq])]
    have hor : p ||| 0x20 < 2 ^ 8 := Nat.or_lt_two_pow (by exact hlt) (by decide)
    show getCell (setCell s.board sq (if p = 0 then 0 else p ||| 0x20)) sq =
      p ||| 0x20
    rw [if_neg hp, getCell_setCell_same]
    exact Nat.mod_eq_of_lt (show p ||| 0x20 < 256 from hor)
  · decide
  · decide

/-- C7 witness: the stored-bit component at a concrete square and piece. -/
theorem claim_C7_witness :
    getCell (mcumaxSetPiece zeroState 0 9).1.board 0 = 9 ||| 0x20 :=
  claim_C7.1 zeroState 0 9 (by decide) (by decide) (by decide)

/-- C7 counterexample: from the FEN "7k/8/8/8/8/8/8/K6P w K - 0 1" (pawn on
h1, castling field "K" clearing h1's moved bit) the enumeration contains the
two-square pawn move 119 → 87 (h1-h3). -/
theorem claim_C7_counterexample :
    Move.mk 119 87 ∈ (mcumaxSearchValidMoves 50 30 fenPH1).2.validMovesBuffer := by
  decide

/-- C8: `mcumax_get_piece` returns empty off-board and otherwise the low
nibble of the cell XOR-ed with the black flag, exactly as specified. -/
theorem claim_C8 :
    ∀ (s : EngineState) (sq : Nat), mcumaxGetPiece s sq = specGetPiece s.board sq :=
  fun _ _ => rfl

/-- C9: with the null callback modelled (no callback field at all), the
best-move search is a pure function of the engine state and the node/depth
limits: equal inputs give equal move and equal final state. -/
theorem claim_C9 :
    ∀ (fuel nodeMax depthMax : Nat) (s t : EngineState), s = t →
      mcumaxSearchBestMove fuel nodeMax depthMax s =
        mcumaxSearchBestMove fuel nodeMax depthMax t := by
  intro fuel nodeMax depthMax s t h
  rw [h]

/-- C9 witness: determinism at a concrete state. -/
theorem claim_C9_witness :
    mcumaxSearchBestMove 1 0 0 zeroState = mcumaxSearchBestMove 1 0 0 zeroState :=
  claim_C9 1 0 0 zeroState zeroState rfl

/-- C10: when no square of the 64-square scan holds a king of the given side,
the king scan of `is_in_check` finds nothing, the sentinel 0x80 is used and
the function returns false rather than faulting. -/
theorem claim_C10 :
    ∀ (s : EngineState) (side : Nat),
      (∀ sq ∈ checkScanSquares,
        ((getCell s.board sq &&& (if side = 0x8 then 0x8 else 0x10) != 0) &&
          (getCell s.board sq &&& 7 == 4)) = false) →
      isInCheck s side = false := by
  intro s side h
  have hk : findKingSquare s.board (if side = 0x8 then 0x8 else 0x10) = 0x80 := by
    unfold findKingSquare
    rw [List.find?_eq_none.mpr]
    · rfl
    · intro x hx
      simp [h x hx]
  simp only [isInCheck, hk]
  simp

/-- C10 witness: the empty board has no king anywhere. -/
theorem claim_C10_witness : isInCheck zeroState 0x8 = false :=
  claim_C10 zeroState 0x8 (by decide)

end McuMax
